import Mathlib

/-!
Shallow embedding of `src/exporters/stat.ink.ts` (s3si.ts stat.ink exporter).

Conventions of the embedding:
* JavaScript numbers that only ever hold integers are `Int` (or `Nat` for
  indices); numbers that can be fractional (danger rates, paint ratios,
  colors) are `ℚ`.
* `x | null | undefined` fields are `Option`.
* Functions imported from other modules of the repository (`utils.ts`,
  `constant.ts`) and JavaScript builtins (`parseInt`, `Date`, the special
  icon-hash regular expression) are not part of the source file under
  `src/`; they are passed in through the `ExternDeps` record, and all
  theorems quantify over them.
* `async` functions that can `throw` become functions into `Except`.
-/

namespace S3SI

/-- External functions the exporter imports from other modules of the
repository or from the JavaScript runtime.  Every theorem below is
universally quantified over this record. -/
structure ExternDeps where
  /-- `b64Number` from `utils.ts`: decodes the numeric tail of a base64 id. -/
  b64Number : String → Int
  /-- `gameId` from `utils.ts` (s3s identifier scheme). -/
  gameId : String → String
  /-- `s3siGameId` from `utils.ts` (legacy s3si identifier scheme). -/
  s3siGameId : String → String
  /-- `s3sCoopGameId` from `utils.ts` (legacy s3s coop identifier scheme). -/
  s3sCoopGameId : String → String
  /-- `new Date(s).getTime()`, in milliseconds. -/
  dateGetTime : String → Int
  /-- JavaScript `parseInt` on a decimal string. -/
  parseIntStr : String → Int
  /-- `SPLATNET3_STATINK_MAP.RULE` from `constant.ts`. -/
  ruleMap : String → String
  /-- `SPLATNET3_STATINK_MAP.RESULT` from `constant.ts`. -/
  resultMap : String → String
  /-- `SPLATNET3_STATINK_MAP.DRAGON` from `constant.ts`. -/
  dragonMap : String → String
  /-- `SPLATNET3_STATINK_MAP.COOP_SPECIAL_MAP` from `constant.ts`. -/
  coopSpecialMap : String → Option String
  /-- `SPLATNET3_STATINK_MAP.COOP_EVENT_MAP` from `constant.ts`. -/
  coopEventMap : Int → Option String
  /-- `SPLATNET3_STATINK_MAP.WATER_LEVEL_MAP` from `constant.ts`. -/
  waterLevelMap : Nat → Option String
  /-- Capture group of the regular expression applied to the special
  weapon icon path in `mapSpecial` (the `\/(\w+)_0\.\w+` match). -/
  specialHashExec : String → Option String
  /-- `AGENT_NAME` from `constant.ts`. -/
  agentName : String
  /-- `S3SI_VERSION` from `constant.ts`. -/
  s3siVersion : String

/-- Parsed JSON body of the stat.ink uuid-list endpoint: either an
array of id strings, or some other JSON value carrying an optional
`message` field. -/
inductive UuidListBody where
  | arr (l : List String)
  | obj (message : Option String)
  deriving DecidableEq

/-- Parsed JSON body of a stat.ink POST response (`StatInkPostResponse`):
an optional embedded `error` field and the record `url`.  The
parse-failure fallback `{}` is the record with neither field. -/
structure StatInkPostResponse where
  error : Option (List String)
  url : Option String
  deriving DecidableEq

/-- The parsed JSON carried by an `APIError`. -/
inductive APIErrorPayload where
  | uuidBody (b : UuidListBody)
  | postResp (r : StatInkPostResponse)
  deriving DecidableEq

/-- The `APIError` class: carries the response status, the parsed JSON
body (if any) and a message. -/
structure APIError where
  status : Nat
  json : Option APIErrorPayload
  message : Option String
  deriving DecidableEq

/-- Failure of an exporter operation: a thrown `APIError`, a thrown
`Error`/`TypeError` from the mappers (`mapping`), or a JSON parse
failure of a response body. -/
inductive ExportError where
  | api (e : APIError)
  | mapping (message : String)
  | parseFailure
  deriving DecidableEq

/-- Sequencing of a list of fallible computations, as performed by
`Promise.all(list.map(f))`: the first rejection wins. -/
def exceptMapM (f : α → Except ExportError β) : List α → Except ExportError (List β)
  | [] => Except.ok []
  | x :: xs =>
    match f x with
    | Except.error e => Except.error e
    | Except.ok y =>
      match exceptMapM f xs with
      | Except.error e => Except.error e
      | Except.ok ys => Except.ok (y :: ys)

/-- JavaScript truthiness of a `string | null | undefined` value: `null`,
`undefined` and the empty string are falsy. -/
def truthyStr : Option String → Bool
  | none => false
  | some s => s ≠ ""

/-- An object of the shape `{ id: string }`. -/
structure IdRef where
  id : String
  deriving DecidableEq

/-! ## Coop input data model (`CoopInfo` from `types.ts`) -/

/-- Image url as it reaches the exporter: a string, an object
`{ pathname }` produced by `urlSimplify`, or null/undefined. -/
inductive ImageUrl where
  | str (s : String)
  | obj (pathname : String)
  | nullv
  deriving DecidableEq

structure Image where
  url : ImageUrl
  deriving DecidableEq

structure CoopPlayerInner where
  name : String
  nameId : String
  byname : String
  uniform : IdRef
  deriving DecidableEq

/-- A `{ name, image }` weapon entry of a coop player. -/
structure NamedImage where
  name : String
  image : Option Image
  deriving DecidableEq

/-- The special weapon record `{ name, image }`. -/
structure SpecialWeaponRec where
  name : String
  image : Image
  deriving DecidableEq

structure CoopHistoryPlayerResult where
  player : CoopPlayerInner
  weapons : List NamedImage
  specialWeapon : Option SpecialWeaponRec
  defeatEnemyCount : Int
  deliverCount : Int
  goldenAssistCount : Int
  goldenDeliverCount : Int
  rescueCount : Int
  rescuedCount : Int
  deriving DecidableEq

structure EventWave where
  id : String
  deriving DecidableEq

structure CoopWaveResult where
  waveNumber : Int
  waterLevel : Nat
  eventWave : Option EventWave
  deliverNorm : Int
  goldenPopCount : Int
  teamDeliverCount : Int
  specialWeapons : List SpecialWeaponRec
  deriving DecidableEq

structure CoopEnemyResult where
  enemy : IdRef
  popCount : Int
  teamDefeatCount : Int
  defeatCount : Int
  deriving DecidableEq

structure CoopBossResult where
  hasDefeatBoss : Bool
  boss : IdRef
  deriving DecidableEq

structure CoopGrade where
  id : String
  deriving DecidableEq

structure CoopScale where
  gold : Int
  silver : Int
  bronze : Int
  deriving DecidableEq

structure CoopHistoryDetail where
  id : String
  rule : String
  coopStage : IdRef
  dangerRate : ℚ
  resultWave : Int
  bossResult : Option CoopBossResult
  myResult : CoopHistoryPlayerResult
  memberResults : List CoopHistoryPlayerResult
  scale : Option CoopScale
  playedTime : String
  enemyResults : List CoopEnemyResult
  smellMeter : Option Int
  waveResults : List CoopWaveResult
  afterGrade : Option CoopGrade
  afterGradePoint : Option Int
  jobPoint : Option Int
  jobScore : Option Int
  jobRate : Option ℚ
  jobBonus : Option Int
  deriving DecidableEq

structure CoopGradeBefore where
  grade : CoopGrade
  gradePoint : Int
  deriving DecidableEq

structure CoopGroupInfo where
  mode : Option String
  deriving DecidableEq

structure CoopInfo where
  gradeBefore : Option CoopGradeBefore
  groupInfo : Option CoopGroupInfo
  detail : CoopHistoryDetail
  deriving DecidableEq

/-! ## Coop output data model (stat.ink coop post body) -/

structure StatInkCoopPlayer where
  me : String
  name : String
  number : String
  splashtag_title : String
  uniform : String
  special : Option String
  weapons : List (Option String)
  golden_eggs : Int
  golden_assist : Int
  power_eggs : Int
  rescue : Int
  rescued : Int
  defeat_boss : Int
  disconnected : String
  deriving DecidableEq

structure StatInkCoopWave where
  tide : Option String
  event : Option String
  golden_quota : Int
  golden_appearances : Int
  golden_delivered : Int
  special_uses : List (String × Nat)
  danger_rate : Option ℚ
  deriving DecidableEq

structure StatInkBossCount where
  appearances : Int
  defeated : Int
  defeated_by_me : Int
  deriving DecidableEq

structure StatInkCoopPostBody where
  uuid : String
  private_ : String
  big_run : String
  eggstra_work : String
  stage : String
  danger_rate : Option ℚ
  clear_waves : Int
  fail_reason : Option String
  king_smell : Option Int
  king_salmonid : Option String
  clear_extra : String
  title_before : Option String
  title_exp_before : Option Int
  title_after : Option String
  title_exp_after : Option Int
  golden_eggs : Int
  power_eggs : Int
  gold_scale : Option Int
  silver_scale : Option Int
  bronze_scale : Option Int
  job_point : Option Int
  job_score : Option Int
  job_rate : Option ℚ
  job_bonus : Option Int
  waves : List StatInkCoopWave
  players : List StatInkCoopPlayer
  bosses : List (Int × StatInkBossCount)
  agent : String
  agent_version : String
  agent_variables : List (String × String)
  automated : String
  start_at : Int
  deriving DecidableEq

/-! ## Coop mapping functions -/

/-- `COOP_POINT_MAP` (lines 45–50): point delta keyed by clear-wave count. -/
def COOP_POINT_MAP (n : Int) : Option Int :=
  if n = 0 then some (-20)
  else if n = 1 then some (-10)
  else if n = 2 then some 0
  else if n = 3 then some 20
  else none

/-- Starts-with test on character lists. -/
def listStartsWith : List Char → List Char → Bool
  | [], _ => true
  | _ :: _, [] => false
  | p :: ps, c :: cs => p == c && listStartsWith ps cs

/-- Contiguous-substring test on character lists. -/
def listHasInfix (pat : List Char) : List Char → Bool
  | [] => listStartsWith pat []
  | c :: rest => listStartsWith pat (c :: rest) || listHasInfix pat rest

/-- Substring test used to model JavaScript `String.prototype.includes`. -/
def strIncludes (s pat : String) : Bool :=
  listHasInfix pat.data s.data

/-- `isRandom` (lines 613–626): does the image url contain the known
"question mark" placeholder hash. -/
def RANDOM_FILENAME : String :=
  "473fffb2442075078d8bb7125744905abdeae651b6a5b7453ae295582e45f7d1"

def isRandom (image : Option Image) : Bool :=
  match image with
  | none => false
  | some img =>
    match img.url with
    | ImageUrl.str s => strIncludes s RANDOM_FILENAME
    | ImageUrl.nullv => false
    | ImageUrl.obj pathname => strIncludes pathname RANDOM_FILENAME

/-- `mapSpecial` (lines 642–659). -/
def mapSpecial (deps : ExternDeps) (sw : SpecialWeaponRec) :
    Except ExportError (Option String) :=
  let imageName :=
    match sw.image.url with
    | ImageUrl.obj pathname => pathname
    | ImageUrl.str s => s
    | ImageUrl.nullv => ""
  let hash := (deps.specialHashExec imageName).getD ""
  match deps.coopSpecialMap hash with
  | some special => Except.ok (some special)
  | none =>
    if isRandom (some sw.image) then Except.ok none
    else Except.error (ExportError.mapping
      ("Special not found: " ++ sw.name ++ " (" ++ imageName ++ ")"))

/-- `mapCoopWeapon` (lines 627–641); the salmon weapon map is passed in
(it is fetched by `getSalmonWeaponMap`, see below). -/
def mapCoopWeapon (weaponMap : String → Option String)
    (w : NamedImage) : Except ExportError (Option String) :=
  match weaponMap w.name with
  | some weapon => Except.ok (some weapon)
  | none =>
    if isRandom w.image then Except.ok none
    else Except.error (ExportError.mapping ("Weapon not found: " ++ w.name))

/-- `mapCoopPlayer` (lines 660–695).  Note the source computes
`disconnected` as `[...counters].every(v => v === 0) || !specialWeapon`. -/
def mapCoopPlayer (deps : ExternDeps) (weaponMap : String → Option String)
    (isMyself : Bool) (r : CoopHistoryPlayerResult) :
    Except ExportError StatInkCoopPlayer :=
  let disconnected : Bool :=
    ([r.goldenDeliverCount, r.deliverCount, r.rescueCount, r.rescuedCount,
      r.defeatEnemyCount].all (fun v => v == 0)) || r.specialWeapon.isNone
  let specialE : Except ExportError (Option String) :=
    match r.specialWeapon with
    | some sw => mapSpecial deps sw
    | none => Except.ok none
  match specialE with
  | Except.error e => Except.error e
  | Except.ok special =>
    match exceptMapM (fun w => mapCoopWeapon weaponMap w) r.weapons with
    | Except.error e => Except.error e
    | Except.ok weapons =>
      Except.ok
        { me := if isMyself then "yes" else "no"
          name := r.player.name
          number := r.player.nameId
          splashtag_title := r.player.byname
          uniform := toString (deps.b64Number r.player.uniform.id)
          special := special
          weapons := weapons
          golden_eggs := r.goldenDeliverCount
          golden_assist := r.goldenAssistCount
          power_eggs := r.deliverCount
          rescue := r.rescueCount
          rescued := r.rescuedCount
          defeat_boss := r.defeatEnemyCount
          disconnected := if disconnected then "yes" else "no" }

/-- `mapKing` (lines 696–703). -/
def mapKing (deps : ExternDeps) (id : Option String) : Option String :=
  match id with
  | none => none
  | some i => some (toString (deps.b64Number i))

/-- The `special_uses` accumulation of `mapWave`: `(p[key] ?? 0) + 1`
written into a fresh object. -/
def bumpUse (p : List (String × Nat)) (key : String) : List (String × Nat) :=
  if p.any (fun q => q.1 == key) then
    p.map (fun q => if q.1 == key then (key, q.2 + 1) else q)
  else p ++ [(key, 1)]

def countUses (keys : List String) : List (String × Nat) :=
  keys.foldl bumpUse []

/-- `mapWave` (lines 704–729). -/
def mapWave (deps : ExternDeps) (wave : CoopWaveResult) :
    Except ExportError StatInkCoopWave :=
  let event := wave.eventWave.bind
    (fun e => deps.coopEventMap (deps.b64Number e.id))
  match exceptMapM (fun w => mapSpecial deps w) wave.specialWeapons with
  | Except.error e => Except.error e
  | Except.ok keys =>
    Except.ok
      { tide := deps.waterLevelMap wave.waterLevel
        event := event
        golden_quota := wave.deliverNorm
        golden_appearances := wave.goldenPopCount
        golden_delivered := wave.teamDeliverCount
        special_uses := countUses (keys.flatMap (fun k => k.toList))
        danger_rate := none }

/-- The `added_percent` computation of the team-contest danger-rate loop
(lines 872–905), including the two-player branch where `added_percent`
is assigned 10 and then immediately reassigned 5. -/
def addedPercent (num_players : Nat) (quota delivered : Int) : ℚ :=
  let added_percent : ℚ := 0
  if num_players == 4 then
    if (delivered : ℚ) ≥ (quota : ℚ) * 2 then 60
    else if (delivered : ℚ) ≥ (quota : ℚ) * 1.5 then 30
    else added_percent
  else if num_players == 3 then
    if (delivered : ℚ) ≥ (quota : ℚ) * 2 then 40
    else if (delivered : ℚ) ≥ (quota : ℚ) * 1.5 then 20
    else added_percent
  else if num_players == 2 then
    if (delivered : ℚ) ≥ (quota : ℚ) * 2 then 20
    else if (delivered : ℚ) ≥ (quota : ℚ) * 1.5 then
      let added_percent : ℚ := 10
      let added_percent : ℚ := 5
      added_percent
    else added_percent
  else if num_players == 1 then
    if (delivered : ℚ) ≥ (quota : ℚ) * 2 then 10
    else if (delivered : ℚ) ≥ (quota : ℚ) * 1.5 then 5
    else added_percent
  else added_percent

/-- The wave-by-wave danger-rate fill loop (lines 866–914), as a
recursion carrying `lastWave` (the previously processed, already
updated wave). -/
def fillDangerRateAux (num_players : Nat)
    (lastWave : Option StatInkCoopWave) :
    List StatInkCoopWave → List StatInkCoopWave
  | [] => []
  | wave :: rest =>
    let haz_level : ℚ :=
      match lastWave with
      | none => 60
      | some lw =>
        (lw.danger_rate.getD 0) +
          addedPercent num_players lw.golden_quota lw.golden_delivered
    let wave := { wave with danger_rate := some haz_level }
    wave :: fillDangerRateAux num_players (some wave) rest

def fillDangerRate (num_players : Nat) (waves : List StatInkCoopWave) :
    List StatInkCoopWave :=
  fillDangerRateAux num_players none waves

/-- The "before" grade inference of `mapCoop` (lines 783–814), returning
`(title_before, title_exp_before)`. -/
def inferTitleBefore (deps : ExternDeps)
    (gradeBefore : Option CoopGradeBefore)
    (title_after : Option String) (title_exp_after : Option Int)
    (clear_waves : Int) : Option String × Option Int :=
  match gradeBefore with
  | some gb =>
    (some (toString (deps.b64Number gb.grade.id)), some gb.gradePoint)
  | none =>
    match title_after, title_exp_after, COOP_POINT_MAP clear_waves with
    | some ta, some tea, some expDiff =>
      if tea = 40 ∧ expDiff = 20 then
        -- 20 -> 40 or ?(rank up) -> 40 : the source leaves both unset
        (none, none)
      else if tea = 40 ∧ expDiff < 0 ∧ ta ≠ "8" then
        -- 60,50 -> 40 or ?(rank down) to 40 : the source leaves both unset
        (none, none)
      else if tea = 999 ∧ expDiff ≠ 0 then
        (some ta, none)
      else if tea - expDiff ≥ 0 then
        (some ta, some (tea - expDiff))
      else
        (some (toString (deps.parseIntStr ta - 1)), none)
    | _, _, _ => (none, none)

/-- The `clear_waves` computation of `mapCoop` (lines 771–781). -/
def clearWavesOf (rule : String) (waveResults : List CoopWaveResult)
    (resultWave : Int) : Int :=
  let maxWaves : Int := if rule = "TEAM_CONTEST" then 5 else 3
  if waveResults.length > 0 then
    ((waveResults.filter (fun i => i.waveNumber < maxWaves + 1)).length : Int)
      - 1 + (if resultWave = 0 then 1 else 0)
  else 0

/-- The `fail_reason` computation of `mapCoop` (lines 816–823). -/
def failReasonOf (rule : String) (waveResults : List CoopWaveResult)
    (clear_waves : Int) : Option String :=
  let maxWaves : Int := if rule = "TEAM_CONTEST" then 5 else 3
  if clear_waves ≠ maxWaves ∧ waveResults.length > 0 then
    match waveResults.getLast? with
    | some lastWave =>
      if lastWave.teamDeliverCount ≥ lastWave.deliverNorm then some "wipe_out"
      else none
    | none => none
  else none

/-- The pure assembly of the coop post body (lines 750–915) from the
already-awaited wave and player results, including the final
team-contest danger-rate fill of `result.waves`. -/
def mapCoopResult (deps : ExternDeps) (uploadMode : String) (game : CoopInfo)
    (waves : List StatInkCoopWave) (players : List StatInkCoopPlayer) :
    StatInkCoopPostBody :=
  let detail := game.detail
  let startedAt := Int.fdiv (deps.dateGetTime detail.playedTime) 1000
  let golden_eggs :=
    detail.waveResults.foldl (fun prev i => prev + i.teamDeliverCount) 0
  let power_eggs := detail.myResult.deliverCount +
    detail.memberResults.foldl (fun p i => p + i.deliverCount) 0
  let bosses := detail.enemyResults.map (fun i =>
    (deps.b64Number i.enemy.id,
     { appearances := i.popCount
       defeated := i.teamDefeatCount
       defeated_by_me := i.defeatCount : StatInkBossCount }))
  let title_after := detail.afterGrade.map
    (fun g => toString (deps.b64Number g.id))
  let title_exp_after := detail.afterGradePoint
  let clear_waves := clearWavesOf detail.rule detail.waveResults
    detail.resultWave
  let tb := inferTitleBefore deps game.gradeBefore title_after
    title_exp_after clear_waves
  let fail_reason := failReasonOf detail.rule detail.waveResults clear_waves
  let result : StatInkCoopPostBody :=
    { uuid := deps.gameId detail.id
      private_ :=
        if (game.groupInfo.map (fun g => g.mode)) = some (some "PRIVATE_CUSTOM")
        then "yes" else "no"
      big_run := if detail.rule = "BIG_RUN" then "yes" else "no"
      eggstra_work := if detail.rule = "TEAM_CONTEST" then "yes" else "no"
      stage := toString (deps.b64Number detail.coopStage.id)
      danger_rate :=
        if detail.rule = "TEAM_CONTEST" then none
        else some (detail.dangerRate * 100)
      clear_waves := clear_waves
      fail_reason := fail_reason
      king_smell := detail.smellMeter
      king_salmonid := mapKing deps
        (detail.bossResult.map (fun b => b.boss.id))
      clear_extra :=
        if (detail.bossResult.map (fun b => b.hasDefeatBoss)) = some true
        then "yes" else "no"
      title_before := tb.1
      title_exp_before := tb.2
      title_after := title_after
      title_exp_after := title_exp_after
      golden_eggs := golden_eggs
      power_eggs := power_eggs
      gold_scale := detail.scale.map (fun s => s.gold)
      silver_scale := detail.scale.map (fun s => s.silver)
      bronze_scale := detail.scale.map (fun s => s.bronze)
      job_point := detail.jobPoint
      job_score := detail.jobScore
      job_rate := detail.jobRate
      job_bonus := detail.jobBonus
      waves := waves
      players := players
      bosses := bosses
      agent := deps.agentName
      agent_version := deps.s3siVersion
      agent_variables := [("Upload Mode", uploadMode)]
      automated := "yes"
      start_at := startedAt }
  if detail.rule = "TEAM_CONTEST" then
    { result with waves := fillDangerRate players.length result.waves }
  else result

/-- `mapCoop` (lines 730–916): awaits the wave and player mappings (each
can fail) and assembles the post body. -/
def mapCoop (deps : ExternDeps) (weaponMap : String → Option String)
    (uploadMode : String) (game : CoopInfo) :
    Except ExportError StatInkCoopPostBody :=
  match exceptMapM (fun w => mapWave deps w) game.detail.waveResults with
  | Except.error e => Except.error e
  | Except.ok waves =>
    match mapCoopPlayer deps weaponMap true game.detail.myResult with
    | Except.error e => Except.error e
    | Except.ok me =>
      match exceptMapM
          (fun p => mapCoopPlayer deps weaponMap false p)
          game.detail.memberResults with
      | Except.error e => Except.error e
      | Except.ok others =>
        Except.ok (mapCoopResult deps uploadMode game waves (me :: others))

/-! ## Decomposition lemmas for `mapCoop` -/

theorem mapCoop_ok_elim {deps : ExternDeps} {wm : String → Option String}
    {um : String} {game : CoopInfo} {body : StatInkCoopPostBody}
    (h : mapCoop deps wm um game = Except.ok body) :
    ∃ waves me others,
      exceptMapM (fun w => mapWave deps w) game.detail.waveResults =
        Except.ok waves ∧
      mapCoopPlayer deps wm true game.detail.myResult = Except.ok me ∧
      exceptMapM (fun p => mapCoopPlayer deps wm false p)
        game.detail.memberResults = Except.ok others ∧
      body = mapCoopResult deps um game waves (me :: others) := by
  unfold mapCoop at h
  cases h1 : exceptMapM (fun w => mapWave deps w) game.detail.waveResults with
  | error e => rw [h1] at h; exact absurd h (by simp)
  | ok waves =>
    rw [h1] at h
    cases h2 : mapCoopPlayer deps wm true game.detail.myResult with
    | error e => rw [h2] at h; exact absurd h (by simp)
    | ok me =>
      rw [h2] at h
      cases h3 : exceptMapM (fun p => mapCoopPlayer deps wm false p)
          game.detail.memberResults with
      | error e => rw [h3] at h; exact absurd h (by simp)
      | ok others =>
        rw [h3] at h
        simp only [Except.ok.injEq] at h
        exact ⟨waves, me, others, rfl, rfl, rfl, h.symm⟩

/-- Projections of the assembled coop body that are independent of the
awaited wave/player results. -/
theorem mapCoopResult_fields (deps : ExternDeps) (um : String)
    (game : CoopInfo) (waves : List StatInkCoopWave)
    (players : List StatInkCoopPlayer) :
    (mapCoopResult deps um game waves players).clear_waves =
      clearWavesOf game.detail.rule game.detail.waveResults
        game.detail.resultWave ∧
    (mapCoopResult deps um game waves players).title_before =
      (inferTitleBefore deps game.gradeBefore
        (game.detail.afterGrade.map (fun g => toString (deps.b64Number g.id)))
        game.detail.afterGradePoint
        (clearWavesOf game.detail.rule game.detail.waveResults
          game.detail.resultWave)).1 ∧
    (mapCoopResult deps um game waves players).title_exp_before =
      (inferTitleBefore deps game.gradeBefore
        (game.detail.afterGrade.map (fun g => toString (deps.b64Number g.id)))
        game.detail.afterGradePoint
        (clearWavesOf game.detail.rule game.detail.waveResults
          game.detail.resultWave)).2 ∧
    (mapCoopResult deps um game waves players).players = players ∧
    (mapCoopResult deps um game waves players).danger_rate =
      (if game.detail.rule = "TEAM_CONTEST" then none
       else some (game.detail.dangerRate * 100)) ∧
    (mapCoopResult deps um game waves players).waves =
      (if game.detail.rule = "TEAM_CONTEST" then
        fillDangerRate players.length waves
       else waves) := by
  unfold mapCoopResult
  by_cases h : game.detail.rule = "TEAM_CONTEST" <;> simp [h]

/-! ## C1: the coop disconnection flag -/

/-- C1 (amended): for every coop player result, the mapped player is
flagged disconnected exactly when all five counters are zero **or** no
special weapon was recorded (the source combines the two conditions with
`||`, not `&&`). -/
theorem coop_player_disconnected_iff (deps : ExternDeps)
    (wm : String → Option String) (isMyself : Bool)
    (r : CoopHistoryPlayerResult) (p : StatInkCoopPlayer)
    (hok : mapCoopPlayer deps wm isMyself r = Except.ok p) :
    p.disconnected = "yes" ↔
      ((r.goldenDeliverCount = 0 ∧ r.deliverCount = 0 ∧ r.rescueCount = 0 ∧
        r.rescuedCount = 0 ∧ r.defeatEnemyCount = 0) ∨
       r.specialWeapon = none) := by
  unfold mapCoopPlayer at hok
  cases h1 : (match r.specialWeapon with
    | some sw => mapSpecial deps sw
    | none => Except.ok none : Except ExportError (Option String)) with
  | error e => rw [h1] at hok; exact absurd hok (by simp)
  | ok special =>
    rw [h1] at hok
    cases h2 : exceptMapM (fun w => mapCoopWeapon wm w) r.weapons with
    | error e => rw [h2] at hok; exact absurd hok (by simp)
    | ok weapons =>
      rw [h2] at hok
      simp only [Except.ok.injEq] at hok
      subst hok
      by_cases hd : ([r.goldenDeliverCount, r.deliverCount, r.rescueCount,
          r.rescuedCount, r.defeatEnemyCount].all (fun v => v == 0)) ||
          r.specialWeapon.isNone
      · simp only [hd, if_true]
        simp only [List.all_cons, List.all_nil, Bool.or_eq_true,
          Bool.and_eq_true, beq_iff_eq, Option.isNone_iff_eq_none] at hd
        simp only [true_iff]
        tauto
      · simp only [hd, if_false]
        simp only [List.all_cons, List.all_nil, Bool.or_eq_true,
          Bool.and_eq_true, beq_iff_eq, Option.isNone_iff_eq_none] at hd
        push_neg at hd
        constructor
        · intro h; exact absurd h (by decide)
        · intro h
          exfalso
          rcases h with ⟨ha, hb, hc, hdd, he⟩ | hn
          · exact (hd.1 ha hb hc hdd he) trivial
          · exact hd.2 hn

/-! ## Concrete fixtures used by witnesses and counterexamples -/

def cdeps : ExternDeps :=
  { b64Number := fun _ => 5
    gameId := fun s => s
    s3siGameId := fun s => s ++ "-si"
    s3sCoopGameId := fun s => s ++ "-coop"
    dateGetTime := fun _ => 0
    parseIntStr := fun _ => 5
    ruleMap := fun _ => "r"
    resultMap := fun _ => "w"
    dragonMap := fun _ => "d"
    coopSpecialMap := fun _ => some "nicedive"
    coopEventMap := fun _ => none
    waterLevelMap := fun _ => none
    specialHashExec := fun _ => none
    agentName := "agent"
    s3siVersion := "ver" }

def cwm : String → Option String := fun _ => some "bow"

def cCoopPlayer (gdc : Int) (sw : Option SpecialWeaponRec) :
    CoopHistoryPlayerResult :=
  { player := { name := "p", nameId := "1111", byname := "b"
                uniform := { id := "u" } }
    weapons := []
    specialWeapon := sw
    defeatEnemyCount := 0
    deliverCount := 0
    goldenAssistCount := 0
    goldenDeliverCount := gdc
    rescueCount := 0
    rescuedCount := 0 }

def cSpecial : SpecialWeaponRec :=
  { name := "sp", image := { url := ImageUrl.str "path" } }

def cWave (n quota delivered : Int) : CoopWaveResult :=
  { waveNumber := n
    waterLevel := 0
    eventWave := none
    deliverNorm := quota
    goldenPopCount := 0
    teamDeliverCount := delivered
    specialWeapons := [] }

def cCoopGame (rule : String) (waves : List CoopWaveResult)
    (resultWave : Int) (afterGrade : Option CoopGrade)
    (afterGradePoint : Option Int)
    (members : List CoopHistoryPlayerResult) : CoopInfo :=
  { gradeBefore := none
    groupInfo := none
    detail :=
      { id := "cid"
        rule := rule
        coopStage := { id := "st" }
        dangerRate := 0
        resultWave := resultWave
        bossResult := none
        myResult := cCoopPlayer 0 (some cSpecial)
        memberResults := members
        scale := none
        playedTime := "t"
        enemyResults := []
        smellMeter := none
        waveResults := waves
        afterGrade := afterGrade
        afterGradePoint := afterGradePoint
        jobPoint := none
        jobScore := none
        jobRate := none
        jobBonus := none } }

/-- C1 counterexample: a player with `goldenDeliverCount = 1` (a non-zero
counter) but no recorded special weapon is still mapped with
`disconnected = "yes"`, contradicting the claim that any non-zero counter
prevents the disconnected mark. -/
theorem coop_player_disconnected_counterexample :
    (mapCoopPlayer cdeps cwm false (cCoopPlayer 1 none)).map
      (fun p => p.disconnected) = Except.ok "yes" := by
  simp [mapCoopPlayer, cCoopPlayer, exceptMapM, cdeps, cwm, Except.map]

/-- C1 witness: the amended theorem applied to a concrete player with a
special weapon and a non-zero counter. -/
theorem coop_player_disconnected_witness :
    ∃ p, mapCoopPlayer cdeps cwm false (cCoopPlayer 1 (some cSpecial)) =
        Except.ok p ∧
      (p.disconnected = "yes" ↔
        (((cCoopPlayer 1 (some cSpecial)).goldenDeliverCount = 0 ∧
          (cCoopPlayer 1 (some cSpecial)).deliverCount = 0 ∧
          (cCoopPlayer 1 (some cSpecial)).rescueCount = 0 ∧
          (cCoopPlayer 1 (some cSpecial)).rescuedCount = 0 ∧
          (cCoopPlayer 1 (some cSpecial)).defeatEnemyCount = 0) ∨
         (cCoopPlayer 1 (some cSpecial)).specialWeapon = none)) := by
  cases hok : mapCoopPlayer cdeps cwm false (cCoopPlayer 1 (some cSpecial)) with
  | error e =>
    exact absurd hok (by simp [mapCoopPlayer, cCoopPlayer, exceptMapM,
      cdeps, cwm, mapSpecial, cSpecial])
  | ok p =>
    exact ⟨p, rfl, coop_player_disconnected_iff cdeps cwm false
      (cCoopPlayer 1 (some cSpecial)) p hok⟩

/-! ## C3: the clear-wave count -/

/-- C3 (amended): with 3 waves numbered 1,2,3 and `resultWave = 0` the
mapped `clear_waves` is 3; with waves numbered 1,2 and `resultWave = 3`
the mapped `clear_waves` is 1 (not 2 as claimed: the source counts the
listed waves, subtracts one, and only adds one back when
`resultWave = 0`). -/
theorem coop_clear_waves_values (deps : ExternDeps)
    (wm : String → Option String) (um : String) (game : CoopInfo)
    (body : StatInkCoopPostBody)
    (hok : mapCoop deps wm um game = Except.ok body) :
    (∀ w1 w2 w3, game.detail.waveResults = [w1, w2, w3] →
      w1.waveNumber = 1 → w2.waveNumber = 2 → w3.waveNumber = 3 →
      game.detail.resultWave = 0 → body.clear_waves = 3) ∧
    (∀ w1 w2, game.detail.waveResults = [w1, w2] →
      w1.waveNumber = 1 → w2.waveNumber = 2 →
      game.detail.resultWave = 3 → body.clear_waves = 1) := by
  obtain ⟨waves, me, others, h1, h2, h3, hb⟩ := mapCoop_ok_elim hok
  have hcw := (mapCoopResult_fields deps um game waves (me :: others)).1
  rw [← hb] at hcw
  constructor
  · intro w1 w2 w3 hw hn1 hn2 hn3 hr
    rw [hcw]
    unfold clearWavesOf
    rw [hw, hr]
    by_cases hrule : game.detail.rule = "TEAM_CONTEST" <;>
      simp [hrule, List.filter, hn1, hn2, hn3] <;> norm_num
  · intro w1 w2 hw hn1 hn2 hr
    rw [hcw]
    unfold clearWavesOf
    rw [hw, hr]
    by_cases hrule : game.detail.rule = "TEAM_CONTEST" <;>
      simp [hrule, List.filter, hn1, hn2] <;> norm_num

def cgameC3 : CoopInfo :=
  cCoopGame "REGULAR" [cWave 1 25 30, cWave 2 25 30] 3 none none []

/-- C3 counterexample: a session whose wave list is numbered 1,2 with
`resultWave = 3` is mapped with `clear_waves = 1`, not 2 as the claim
predicts. -/
theorem coop_clear_waves_counterexample :
    (mapCoop cdeps cwm "m" cgameC3).map (fun b => b.clear_waves) =
      Except.ok 1 := by
  simp [mapCoop, cgameC3, cCoopGame, cWave, cCoopPlayer, cSpecial,
    exceptMapM, mapWave, mapCoopPlayer, mapSpecial, isRandom, cdeps, cwm,
    mapCoopResult, clearWavesOf, Except.map, List.filter]

def cgameC3w : CoopInfo :=
  cCoopGame "REGULAR" [cWave 1 25 30, cWave 2 25 30, cWave 3 25 30] 0
    none none []

/-- C3 witness: the full-clear half of the theorem applied to a concrete
three-wave session. -/
theorem coop_clear_waves_witness :
    ∃ body, mapCoop cdeps cwm "m" cgameC3w = Except.ok body ∧
      body.clear_waves = 3 := by
  cases hok : mapCoop cdeps cwm "m" cgameC3w with
  | error e =>
    exact absurd hok (by simp [mapCoop, cgameC3w, cCoopGame, cWave,
      cCoopPlayer, cSpecial, exceptMapM, mapWave, mapCoopPlayer,
      mapSpecial, isRandom, cdeps, cwm])
  | ok body =>
    exact ⟨body, rfl,
      (coop_clear_waves_values cdeps cwm "m" cgameC3w body hok).1
        (cWave 1 25 30) (cWave 2 25 30) (cWave 3 25 30) rfl rfl rfl rfl rfl⟩

/-! ## C2: the "before" title inference at the 40-point band -/

/-- C2 (amended): without a pre-session grade snapshot, when after-title,
after-points and the wave-delta are all known and after-points equal 40,
then both in the delta-is-plus-20 case and in the negative-delta,
after-title-not-"8" case the source leaves the mapped before-title and
before-points **unset** (the corresponding branches of the inference are
empty); in particular after-title "5", after-points 40, one cleared wave
yields an unset before-title and unset before-points. -/
theorem coop_title_before_band40 (deps : ExternDeps)
    (wm : String → Option String) (um : String) (game : CoopInfo)
    (body : StatInkCoopPostBody) (ag : CoopGrade)
    (hok : mapCoop deps wm um game = Except.ok body)
    (hgb : game.gradeBefore = none)
    (hag : game.detail.afterGrade = some ag)
    (hpt : game.detail.afterGradePoint = some 40)
    (hd : ∃ d, COOP_POINT_MAP (clearWavesOf game.detail.rule
            game.detail.waveResults game.detail.resultWave) = some d ∧
          (d = 20 ∨ (d < 0 ∧ toString (deps.b64Number ag.id) ≠ "8"))) :
    body.title_before = none ∧ body.title_exp_before = none := by
  obtain ⟨waves, me, others, h1, h2, h3, hb⟩ := mapCoop_ok_elim hok
  have hf := mapCoopResult_fields deps um game waves (me :: others)
  rw [hb, hf.2.1, hf.2.2.1]
  obtain ⟨d, hd1, hd2⟩ := hd
  rcases hd2 with h20 | ⟨hneg, hne⟩
  · simp [inferTitleBefore, hgb, hag, hpt, hd1, h20]
  · have h20' : d ≠ 20 := by omega
    simp [inferTitleBefore, hgb, hag, hpt, hd1, h20', hneg, hne]

def cgameC2 : CoopInfo :=
  cCoopGame "REGULAR" [cWave 1 25 30, cWave 2 25 30] 3
    (some { id := "g" }) (some 40) []

/-- C2 counterexample: a session with after-title "5" (`b64Number` of the
grade id is 5 under `cdeps`), after-points 40 and one cleared wave
(delta −10) is mapped with **no** before-title and **no** before-points,
whereas the claim predicts before-title "5" and before-points 50. -/
theorem coop_title_before_counterexample :
    (mapCoop cdeps cwm "m" cgameC2).map
      (fun b => (b.title_before, b.title_exp_before)) =
      Except.ok (none, none) := by
  simp [mapCoop, cgameC2, cCoopGame, cWave, cCoopPlayer, cSpecial,
    exceptMapM, mapWave, mapCoopPlayer, mapSpecial, isRandom, cdeps, cwm,
    mapCoopResult, clearWavesOf, inferTitleBefore, COOP_POINT_MAP,
    Except.map, List.filter]
  decide

def cgameC2w : CoopInfo :=
  cCoopGame "REGULAR" [cWave 1 25 30, cWave 2 25 30, cWave 3 25 30] 0
    (some { id := "g" }) (some 40) []

/-- C2 witness: the amended theorem applied to a concrete full-clear
session entering the 40-point band with delta +20. -/
theorem coop_title_before_witness :
    ∃ body, mapCoop cdeps cwm "m" cgameC2w = Except.ok body ∧
      body.title_before = none ∧ body.title_exp_before = none := by
  cases hok : mapCoop cdeps cwm "m" cgameC2w with
  | error e =>
    exact absurd hok (by simp [mapCoop, cgameC2w, cCoopGame, cWave,
      cCoopPlayer, cSpecial, exceptMapM, mapWave, mapCoopPlayer,
      mapSpecial, isRandom, cdeps, cwm])
  | ok body =>
    exact ⟨body, rfl,
      coop_title_before_band40 cdeps cwm "m" cgameC2w body { id := "g" }
        hok rfl rfl rfl ⟨20, by decide, Or.inl rfl⟩⟩

/-! ## C5: the team-contest danger-rate reconstruction -/

theorem exceptMapM_ok_length {α β : Type} {f : α → Except ExportError β} :
    ∀ {xs : List α} {ys : List β},
      exceptMapM f xs = Except.ok ys → ys.length = xs.length := by
  intro xs
  induction xs with
  | nil => intro ys h; simp [exceptMapM] at h; subst h; rfl
  | cons x xs ih =>
    intro ys h
    unfold exceptMapM at h
    cases h1 : f x with
    | error e => rw [h1] at h; exact absurd h (by simp)
    | ok y =>
      rw [h1] at h
      cases h2 : exceptMapM f xs with
      | error e => rw [h2] at h; exact absurd h (by simp)
      | ok ys2 =>
        rw [h2] at h
        simp only [Except.ok.injEq] at h
        subst h
        simp [ih h2]

theorem mapWave_ok_fields {deps : ExternDeps} {w : CoopWaveResult}
    {sw : StatInkCoopWave} (h : mapWave deps w = Except.ok sw) :
    sw.golden_quota = w.deliverNorm ∧
    sw.golden_delivered = w.teamDeliverCount ∧
    sw.danger_rate = none := by
  unfold mapWave at h
  cases h1 : exceptMapM (fun x => mapSpecial deps x) w.specialWeapons with
  | error e => rw [h1] at h; exact absurd h (by simp)
  | ok keys =>
    rw [h1] at h
    simp only [Except.ok.injEq] at h
    subst h
    exact ⟨rfl, rfl, rfl⟩

theorem exceptMapM_mapWave_fields {deps : ExternDeps} :
    ∀ {ws : List CoopWaveResult} {sws : List StatInkCoopWave},
      exceptMapM (fun w => mapWave deps w) ws = Except.ok sws →
      (sws.map (fun s => (s.golden_quota, s.golden_delivered)) =
        ws.map (fun w => (w.deliverNorm, w.teamDeliverCount)) ∧
       ∀ s ∈ sws, s.danger_rate = none) := by
  intro ws
  induction ws with
  | nil =>
    intro sws h; simp [exceptMapM] at h; subst h; simp
  | cons w ws ih =>
    intro sws h
    unfold exceptMapM at h
    cases h1 : mapWave deps w with
    | error e => rw [h1] at h; exact absurd h (by simp)
    | ok s =>
      rw [h1] at h
      cases h2 : exceptMapM (fun w => mapWave deps w) ws with
      | error e => rw [h2] at h; exact absurd h (by simp)
      | ok ss =>
        rw [h2] at h
        simp only [Except.ok.injEq] at h
        subst h
        obtain ⟨hq, hd, hn⟩ := mapWave_ok_fields h1
        obtain ⟨ihm, ihn⟩ := ih h2
        refine ⟨by simp [hq, hd, ihm], ?_⟩
        intro s2 hs2
        rcases List.mem_cons.mp hs2 with hs2 | hs2
        · rw [hs2]; exact hn
        · exact ihn s2 hs2

/-- Increment table exactly as the claim states it (with the two-player
≥1.5× case given its effective value 5). -/
def claimIncrement (players : Nat) (quota delivered : Int) : ℚ :=
  if players == 4 then
    if (delivered : ℚ) ≥ (quota : ℚ) * 2 then 60
    else if (delivered : ℚ) ≥ (quota : ℚ) * 1.5 then 30
    else 0
  else if players == 3 then
    if (delivered : ℚ) ≥ (quota : ℚ) * 2 then 40
    else if (delivered : ℚ) ≥ (quota : ℚ) * 1.5 then 20
    else 0
  else if players == 2 then
    if (delivered : ℚ) ≥ (quota : ℚ) * 2 then 20
    else if (delivered : ℚ) ≥ (quota : ℚ) * 1.5 then 5
    else 0
  else if players == 1 then
    if (delivered : ℚ) ≥ (quota : ℚ) * 2 then 10
    else if (delivered : ℚ) ≥ (quota : ℚ) * 1.5 then 5
    else 0
  else 0

theorem addedPercent_eq_claimIncrement (n : Nat) (q d : Int) :
    addedPercent n q d = claimIncrement n q d := rfl

/-- Hazard recursion exactly as the claim states it: 60 for the first
wave, then the previous value plus the increment determined by the
previous wave's quota/delivered pair. -/
def claimHazardsFrom (players : Nat) (prev : ℚ) (prevQD : Int × Int) :
    List (Int × Int) → List ℚ
  | [] => []
  | qd :: rest =>
    let h := prev + claimIncrement players prevQD.1 prevQD.2
    h :: claimHazardsFrom players h qd rest

def claimHazards (players : Nat) : List (Int × Int) → List ℚ
  | [] => []
  | qd :: rest => 60 :: claimHazardsFrom players 60 qd rest

theorem fillDangerRateAux_rates (n : Nat) :
    ∀ (ws : List StatInkCoopWave) (lw : StatInkCoopWave) (p : ℚ),
      lw.danger_rate = some p →
      (fillDangerRateAux n (some lw) ws).map (fun w => w.danger_rate) =
        (claimHazardsFrom n p (lw.golden_quota, lw.golden_delivered)
          (ws.map fun w => (w.golden_quota, w.golden_delivered))).map some := by
  intro ws
  induction ws with
  | nil => intro lw p _; simp [fillDangerRateAux, claimHazardsFrom]
  | cons w rest ih =>
    intro lw p hp
    simp only [fillDangerRateAux, claimHazardsFrom, List.map_cons]
    rw [hp]
    simp only [Option.getD_some, addedPercent_eq_claimIncrement]
    refine congrArg (List.cons _) ?_
    have h5 := ih ({ w with danger_rate := some (p + claimIncrement n lw.golden_quota lw.golden_delivered) }) (p + claimIncrement n lw.golden_quota lw.golden_delivered) rfl
    simpa using h5

theorem fillDangerRate_rates (n : Nat) (ws : List StatInkCoopWave) :
    (fillDangerRate n ws).map (fun w => w.danger_rate) =
      (claimHazards n
        (ws.map fun w => (w.golden_quota, w.golden_delivered))).map some := by
  cases ws with
  | nil => simp [fillDangerRate, fillDangerRateAux, claimHazards]
  | cons w rest =>
    simp only [fillDangerRate, fillDangerRateAux, claimHazards,
      List.map_cons]
    refine congrArg (List.cons _) ?_
    have := fillDangerRateAux_rates n rest
      { w with danger_rate := some 60 } 60 rfl
    simpa using this

/-- C5: for a team-contest session the per-wave danger rates follow the
claimed recursion (first wave 60, then previous value plus the
player-count/quota increment table, computed from the **previous** source
wave's delivered/quota pair); for every other rule the per-wave values
stay null and the session-level danger rate is the source value times
100. -/
theorem coop_danger_rate_rules (deps : ExternDeps)
    (wm : String → Option String) (um : String) (game : CoopInfo)
    (body : StatInkCoopPostBody)
    (hok : mapCoop deps wm um game = Except.ok body) :
    (game.detail.rule = "TEAM_CONTEST" →
      body.waves.map (fun w => w.danger_rate) =
        (claimHazards body.players.length
          (game.detail.waveResults.map
            (fun w => (w.deliverNorm, w.teamDeliverCount)))).map some) ∧
    (game.detail.rule ≠ "TEAM_CONTEST" →
      (∀ w ∈ body.waves, w.danger_rate = none) ∧
      body.danger_rate = some (game.detail.dangerRate * 100)) := by
  obtain ⟨waves, me, others, h1, h2, h3, hb⟩ := mapCoop_ok_elim hok
  have hf := mapCoopResult_fields deps um game waves (me :: others)
  obtain ⟨hqd, hnone⟩ := exceptMapM_mapWave_fields h1
  have hpl : body.players = me :: others := by
    rw [hb]; exact hf.2.2.2.1
  constructor
  · intro hr
    have hww : body.waves = fillDangerRate (me :: others).length waves := by
      rw [hb, hf.2.2.2.2.2]; simp [hr]
    rw [hww, hpl, fillDangerRate_rates, hqd]
  · intro hr
    have hww : body.waves = waves := by
      rw [hb, hf.2.2.2.2.2]; simp [hr]
    have hdr : body.danger_rate = some (game.detail.dangerRate * 100) := by
      rw [hb, hf.2.2.2.2.1]; simp [hr]
    exact ⟨by rw [hww]; exact hnone, hdr⟩

def cgameC5 : CoopInfo :=
  cCoopGame "TEAM_CONTEST" [cWave 1 30 60, cWave 2 30 20] 0 none none
    [cCoopPlayer 0 (some cSpecial), cCoopPlayer 0 (some cSpecial),
     cCoopPlayer 0 (some cSpecial)]

/-- C5 witness: the theorem applied to a concrete two-wave team-contest
session with 4 players where the first wave delivered twice its quota:
the rates are 60 then 120. -/
theorem coop_danger_rate_witness :
    ∃ body, mapCoop cdeps cwm "m" cgameC5 = Except.ok body ∧
      body.waves.map (fun w => w.danger_rate) = [some 60, some 120] := by
  cases hok : mapCoop cdeps cwm "m" cgameC5 with
  | error e =>
    exact absurd hok (by simp [mapCoop, cgameC5, cCoopGame, cWave,
      cCoopPlayer, cSpecial, exceptMapM, mapWave, mapCoopPlayer,
      mapSpecial, isRandom, cdeps, cwm])
  | ok body =>
    have h := (coop_danger_rate_rules cdeps cwm "m" cgameC5 body hok).1 rfl
    have hpl : body.players.length = 4 := by
      obtain ⟨waves, me, others, h1, h2, h3, hb⟩ := mapCoop_ok_elim hok
      have hp := (mapCoopResult_fields cdeps "m" cgameC5 waves
        (me :: others)).2.2.2.1
      rw [hb, hp]
      have := exceptMapM_ok_length h3
      simp only [List.length_cons, this]
      rfl
    rw [hpl] at h
    refine ⟨body, rfl, ?_⟩
    rw [h]
    norm_num [cgameC5, cCoopGame, cWave, claimHazards, claimHazardsFrom,
      claimIncrement]

/-! ## C4: the salmon-weapon name-to-key map -/

/-- One salmon weapon entry of the stat.ink salmon-weapon catalog;
`name` is the list of locale display names (`Object.values(weapon.name)`
in object order). -/
structure SalmonWeapon where
  key : String
  name : List String
  deriving DecidableEq

def STAT_INK_DOT : String := "·"
def SPLATNET_DOT : String := "‧"

/-- `_getAliasName` (lines 191–200): adds the SplatNet-dot spelling when
the stat.ink name contains the stat.ink dot. -/
def getAliasName (name : String) : List String :=
  if strIncludes name STAT_INK_DOT then
    [name, name.replace STAT_INK_DOT SPLATNET_DOT]
  else [name]

/-- `Map.prototype.get` of the JavaScript insertion-ordered map. -/
def mapGet (m : List (String × String)) (k : String) : Option String :=
  (m.find? (fun p => p.1 == k)).map (fun p => p.2)

/-- `Map.prototype.set`: overwrite in place, or append a new entry. -/
def mapSet (m : List (String × String)) (k v : String) :
    List (String × String) :=
  if (m.find? (fun p => p.1 == k)).isSome then
    m.map (fun p => if p.1 == k then (k, v) else p)
  else m ++ [(k, v)]

/-- One iteration of the inner loop of `getSalmonWeaponMap`
(lines 206–218): warn when the name is already mapped to a different
key, then (unconditionally) set the entry.  `console.warn` output is
modelled as an accumulated list of messages. -/
def salmonWeaponStep (wkey : String)
    (acc : List (String × String) × List String) (name : String) :
    List (String × String) × List String :=
  let prevKey := mapGet acc.1 name
  let warns :=
    match prevKey with
    | some pk =>
      if pk ≠ wkey then acc.2 ++ ["Duplicate weapon name: " ++ name]
      else acc.2
    | none => acc.2
  (mapSet acc.1 name wkey, warns)

/-- `getSalmonWeaponMap` (lines 202–224) on the fetched weapon list,
returning the built map together with the emitted warnings.  (The
surrounding cache check and the throw on an empty result do not change
the built map and are omitted.) -/
def getSalmonWeaponMap (weapons : List SalmonWeapon) :
    List (String × String) × List String :=
  weapons.foldl
    (fun acc weapon =>
      (weapon.name.flatMap getAliasName).foldl
        (salmonWeaponStep weapon.key) acc)
    ([], [])

/-- The `(name, key)` writes performed by `getSalmonWeaponMap`, in
order. -/
def weaponNamePairs (weapons : List SalmonWeapon) :
    List (String × String) :=
  weapons.flatMap
    (fun w => (w.name.flatMap getAliasName).map (fun n => (n, w.key)))

def buildStep (acc : List (String × String) × List String)
    (pr : String × String) : List (String × String) × List String :=
  salmonWeaponStep pr.2 acc pr.1

def buildPairs (ps : List (String × String))
    (acc : List (String × String) × List String) :
    List (String × String) × List String :=
  ps.foldl buildStep acc

theorem getSalmonWeaponMap_eq_buildPairs (weapons : List SalmonWeapon) :
    getSalmonWeaponMap weapons =
      buildPairs (weaponNamePairs weapons) ([], []) := by
  suffices h : ∀ (ws : List SalmonWeapon)
      (acc : List (String × String) × List String),
      ws.foldl (fun acc weapon =>
        (weapon.name.flatMap getAliasName).foldl
          (salmonWeaponStep weapon.key) acc) acc =
        buildPairs (weaponNamePairs ws) acc by
    exact h weapons ([], [])
  intro ws
  induction ws with
  | nil => intro acc; simp [weaponNamePairs, buildPairs]
  | cons w ws ih =>
    intro acc
    simp only [List.foldl_cons, weaponNamePairs, List.flatMap_cons,
      buildPairs, List.foldl_append]
    rw [ih]
    simp only [weaponNamePairs, buildPairs]
    congr 1
    rw [List.foldl_map]
    rfl

theorem find?_pair_cons (k : String) (q : String × String)
    (m : List (String × String)) :
    (q :: m).find? (fun p => p.1 == k) =
      if (q.1 == k) = true then some q
      else m.find? (fun p => p.1 == k) := by
  by_cases h : (q.1 == k) = true
  · simp [List.find?, h]
  · simp [List.find?, h]

theorem find?_replace_self (k v : String) :
    ∀ (m : List (String × String)),
      (m.find? (fun p => p.1 == k)).isSome →
      (m.map (fun p => if p.1 == k then (k, v) else p)).find?
        (fun p => p.1 == k) = some (k, v) := by
  intro m
  induction m with
  | nil => intro h; simp [List.find?] at h
  | cons p m ih =>
    intro h
    rw [List.map_cons]
    by_cases hp : (p.1 == k) = true
    · rw [if_pos hp, find?_pair_cons]
      simp
    · rw [if_neg hp, find?_pair_cons, if_neg hp]
      rw [find?_pair_cons, if_neg hp] at h
      exact ih h

theorem find?_replace_ne (k v k2 : String) (hne : ¬ k2 = k) :
    ∀ (m : List (String × String)),
      (m.map (fun p => if p.1 == k then (k, v) else p)).find?
        (fun p => p.1 == k2) = m.find? (fun p => p.1 == k2) := by
  intro m
  induction m with
  | nil => rfl
  | cons p m ih =>
    rw [List.map_cons]
    by_cases hp : (p.1 == k) = true
    · have h1 : ¬ ((((k, v) : String × String).1 == k2) = true) := by
        simp only [beq_iff_eq]
        exact fun h => hne h.symm
      have h2 : ¬ ((p.1 == k2) = true) := by
        have hpk : p.1 = k := by simpa using hp
        simp only [beq_iff_eq, hpk]
        exact fun h => hne h.symm
      rw [if_pos hp, find?_pair_cons, if_neg h1, find?_pair_cons, if_neg h2]
      exact ih
    · rw [if_neg hp, find?_pair_cons, find?_pair_cons]
      by_cases hp2 : (p.1 == k2) = true
      · rw [if_pos hp2, if_pos hp2]
      · rw [if_neg hp2, if_neg hp2]
        exact ih

theorem mapGet_mapSet (m : List (String × String)) (k v k2 : String) :
    mapGet (mapSet m k v) k2 = if k2 = k then some v else mapGet m k2 := by
  unfold mapSet
  by_cases hs : (m.find? (fun p => p.1 == k)).isSome
  · rw [if_pos hs]
    by_cases h2 : k2 = k
    · subst h2
      unfold mapGet
      rw [find?_replace_self k2 v m hs]
      simp
    · unfold mapGet
      rw [find?_replace_ne k v k2 h2 m]
      simp [h2]
  · rw [if_neg hs]
    unfold mapGet
    rw [List.find?_append]
    by_cases h2 : k2 = k
    · subst h2
      have hnone : m.find? (fun p => p.1 == k2) = none := by
        cases hf : m.find? (fun p => p.1 == k2) with
        | none => rfl
        | some p => rw [hf] at hs; simp at hs
      rw [hnone, find?_pair_cons]
      simp
    · have hk2 : ¬ ((((k, v) : String × String).1 == k2) = true) := by
        simp only [beq_iff_eq]
        exact fun h => h2 h.symm
      rw [find?_pair_cons, if_neg hk2]
      simp [h2, List.find?]

theorem buildPairs_get (n : String) :
    ∀ (ps : List (String × String))
      (acc : List (String × String) × List String),
      mapGet (buildPairs ps acc).1 n =
        (((ps.filter (fun p => p.1 == n)).getLast?).map (fun p => p.2)).or
          (mapGet acc.1 n) := by
  intro ps
  induction ps with
  | nil => intro acc; simp [buildPairs]
  | cons pr ps ih =>
    intro acc
    rcases pr with ⟨n0, k0⟩
    simp only [buildPairs, List.foldl_cons] at ih ⊢
    rw [ih]
    have hstep : (buildStep acc (n0, k0)).1 = mapSet acc.1 n0 k0 := rfl
    rw [hstep, List.filter_cons]
    by_cases hn : ((n0, k0).1 == n) = true
    · rw [if_pos hn]
      have hn' : n = n0 := by
        have := (beq_iff_eq).mp hn
        exact this.symm
      cases hl : (ps.filter (fun p => p.1 == n)).getLast? with
      | some q =>
        have hcons : ((n0, k0) :: ps.filter (fun p => p.1 == n)).getLast? =
            some q := by
          cases hps : ps.filter (fun p => p.1 == n) with
          | nil => rw [hps] at hl; simp at hl
          | cons a l =>
            rw [hps] at hl
            rw [List.getLast?_cons_cons, hl]
        rw [hcons]
        simp
      | none =>
        have hnil : ps.filter (fun p => p.1 == n) = [] := by
          cases hps : ps.filter (fun p => p.1 == n) with
          | nil => rfl
          | cons a l => rw [hps] at hl; simp at hl
        rw [hnil]
        simp [mapGet_mapSet, hn']
    · rw [if_neg hn]
      rw [mapGet_mapSet]
      have hne : ¬ n = n0 := by
        intro h
        apply hn
        simp [h]
      rw [if_neg hne]

theorem buildStep_snd (acc : List (String × String) × List String)
    (pr : String × String) :
    (buildStep acc pr).2 = acc.2 ++
      (match mapGet acc.1 pr.1 with
        | some pk =>
          if pk ≠ pr.2 then ["Duplicate weapon name: " ++ pr.1] else []
        | none => []) := by
  unfold buildStep salmonWeaponStep
  cases hpk : mapGet acc.1 pr.1 with
  | none => simp
  | some pk =>
    by_cases hne : pk ≠ pr.2
    · simp [hne]
    · simp [hne]

theorem buildPairs_warns_prefix :
    ∀ (ps : List (String × String))
      (acc : List (String × String) × List String),
      ∃ extra, (buildPairs ps acc).2 = acc.2 ++ extra := by
  intro ps
  induction ps with
  | nil => intro acc; exact ⟨[], by simp [buildPairs]⟩
  | cons pr ps ih =>
    intro acc
    simp only [buildPairs, List.foldl_cons]
    obtain ⟨extra, hx⟩ := ih (buildStep acc pr)
    simp only [buildPairs] at hx
    exact ⟨_, by rw [hx, buildStep_snd, List.append_assoc]⟩

/-- C4 (amended): building the salmon-weapon name→key map emits a
warning whenever a name is written again with a different key, and the
**last**-seen mapping is kept: for every name, the final map value is the
key of the last write (in fetch order) for that name. -/
theorem salmon_weapon_map_last_writer :
    (∀ (weapons : List SalmonWeapon) (name : String),
      mapGet (getSalmonWeaponMap weapons).1 name =
        (((weaponNamePairs weapons).filter
          (fun p => p.1 == name)).getLast?).map (fun p => p.2)) ∧
    (∀ (weapons : List SalmonWeapon) (ps₁ : List (String × String))
      (n k : String) (ps₂ : List (String × String)) (pk : String),
      weaponNamePairs weapons = ps₁ ++ (n, k) :: ps₂ →
      mapGet (buildPairs ps₁ ([], [])).1 n = some pk → pk ≠ k →
      ("Duplicate weapon name: " ++ n) ∈ (getSalmonWeaponMap weapons).2) := by
  constructor
  · intro weapons name
    rw [getSalmonWeaponMap_eq_buildPairs, buildPairs_get]
    simp [mapGet]
  · intro weapons ps₁ n k ps₂ pk hsplit hprev hne
    rw [getSalmonWeaponMap_eq_buildPairs, hsplit]
    unfold buildPairs
    rw [List.foldl_append]
    simp only [List.foldl_cons]
    obtain ⟨extra, hx⟩ := buildPairs_warns_prefix ps₂
      (buildStep (List.foldl buildStep ([], []) ps₁) (n, k))
    simp only [buildPairs] at hx
    rw [hx]
    rw [buildStep_snd]
    have hp2 : mapGet (List.foldl buildStep ([], []) ps₁).1 n = some pk :=
      hprev
    rw [hp2]
    simp [hne]

def cSalmonW1 : SalmonWeapon := { key := "k1", name := ["X"] }
def cSalmonW2 : SalmonWeapon := { key := "k2", name := ["X"] }

/-- C4 counterexample: two weapons carrying the same display name "X"
with different keys: the final map maps "X" to the key of the **second**
weapon, not the first as claimed (and a warning is emitted). -/
theorem salmon_weapon_map_counterexample :
    mapGet (getSalmonWeaponMap [cSalmonW1, cSalmonW2]).1 "X" = some "k2" ∧
    (getSalmonWeaponMap [cSalmonW1, cSalmonW2]).2 =
      ["Duplicate weapon name: X"] := by
  constructor <;> decide

/-- C4 witness: both halves of the amended theorem applied to the
two-weapon collision example. -/
theorem salmon_weapon_map_witness :
    mapGet (getSalmonWeaponMap [cSalmonW1, cSalmonW2]).1 "X" =
      (((weaponNamePairs [cSalmonW1, cSalmonW2]).filter
        (fun p => p.1 == "X")).getLast?).map (fun p => p.2) ∧
    ("Duplicate weapon name: " ++ "X") ∈
      (getSalmonWeaponMap [cSalmonW1, cSalmonW2]).2 := by
  constructor
  · exact salmon_weapon_map_last_writer.1 [cSalmonW1, cSalmonW2] "X"
  · exact salmon_weapon_map_last_writer.2 [cSalmonW1, cSalmonW2]
      [("X", "k1")] "X" "k2" [] "k1" (by decide) (by decide) (by decide)

/-! ## C10: `uuidList`, and C6: the dedup filter -/

/-- `checkResponse` (lines 52–62): any status outside 200–299 raises an
`APIError` carrying the response and the parse attempt of the body
(`none` when the body is not valid JSON). -/
def checkResponse (status : Nat) (json : Option UuidListBody) :
    Except APIError Unit :=
  if status / 100 ≠ 2 then
    Except.error
      { status := status
        json := json.map APIErrorPayload.uuidBody
        message := some "Failed to fetch data from stat.ink" }
  else Except.ok ()

/-- `uuidList` (lines 82–103); `status` and `body` are the response
status and the parsed JSON of the response body (`none` when the body is
not valid JSON, in which case `await response.json()` itself throws). -/
def uuidList (status : Nat) (body : Option UuidListBody) :
    Except ExportError (List String) :=
  match checkResponse status body with
  | Except.error e => Except.error (ExportError.api e)
  | Except.ok _ =>
    match body with
    | none => Except.error ExportError.parseFailure
    | some (UuidListBody.arr l) => Except.ok l
    | some (UuidListBody.obj msg) =>
      Except.error (ExportError.api
        { status := status
          json := some (APIErrorPayload.uuidBody (UuidListBody.obj msg))
          message := msg })

/-- The filter loop of `notExported` (lines 288–301): keep a candidate
when none of its three derived identifiers appears in the uploaded uuid
list. -/
def notExportedFilter (deps : ExternDeps) (uuid : List String) :
    List String → List String
  | [] => []
  | id :: rest =>
    if ¬ (uuid.contains (deps.gameId id)) ∧
       ¬ (uuid.contains (deps.s3siGameId id)) ∧
       ¬ (uuid.contains (deps.s3sCoopGameId id)) then
      id :: notExportedFilter deps uuid rest
    else notExportedFilter deps uuid rest

/-- `notExported` (lines 283–304): fetch the uploaded uuid list of the
session type (the `type` argument only selects the endpoint URL and is
external to this model), then filter the candidate list. -/
def notExported (deps : ExternDeps) (status : Nat)
    (body : Option UuidListBody) (list : List String) :
    Except ExportError (List String) :=
  match uuidList status body with
  | Except.error e => Except.error e
  | Except.ok uuid => Except.ok (notExportedFilter deps uuid list)

/-- C10: `uuidList` returns an array exactly when the status is 2xx and
the parsed body is an array; a 2xx status with a non-array JSON body
raises an `APIError` carrying the response status, the parsed body and
its embedded message. -/
theorem uuidList_ok_iff (status : Nat) (body : Option UuidListBody) :
    (∀ l, uuidList status body = Except.ok l ↔
      (status / 100 = 2 ∧ body = some (UuidListBody.arr l))) ∧
    (∀ msg, status / 100 = 2 → body = some (UuidListBody.obj msg) →
      uuidList status body = Except.error (ExportError.api
        { status := status
          json := some (APIErrorPayload.uuidBody (UuidListBody.obj msg))
          message := msg })) := by
  constructor
  · intro l
    unfold uuidList checkResponse
    by_cases h2 : status / 100 = 2
    · simp only [h2, ne_eq, not_true_eq_false, if_false]
      cases body with
      | none => simp
      | some b =>
        cases b with
        | arr l2 => simp [eq_comm]
        | obj msg => simp
    · have : status / 100 ≠ 2 := h2
      simp [this, h2]
  · intro msg h2 hb
    subst hb
    unfold uuidList checkResponse
    simp [h2]

/-- C10 witness: the theorem applied at a 2xx status with an embedded
error object, and at a 2xx status with an array body. -/
theorem uuidList_witness :
    uuidList 200 (some (UuidListBody.obj (some "err"))) =
      Except.error (ExportError.api
        { status := 200
          json := some (APIErrorPayload.uuidBody
            (UuidListBody.obj (some "err")))
          message := some "err" }) ∧
    uuidList 200 (some (UuidListBody.arr ["a"])) = Except.ok ["a"] := by
  constructor
  · exact (uuidList_ok_iff 200 (some (UuidListBody.obj (some "err")))).2
      (some "err") (by decide) rfl
  · exact ((uuidList_ok_iff 200 (some (UuidListBody.arr ["a"]))).1
      ["a"]).mpr ⟨by decide, rfl⟩

/-- C6: the dedup filter equals a pure `List.filter` of the candidate
list (so neither input is mutated), and a candidate is kept exactly when
it occurs in the input and none of its three identifier variants occurs
in the uploaded list. -/
theorem notExported_filter_spec (deps : ExternDeps)
    (uuid list : List String) :
    notExportedFilter deps uuid list =
      list.filter (fun id =>
        (!(uuid.contains (deps.gameId id))) &&
        (!(uuid.contains (deps.s3siGameId id))) &&
        (!(uuid.contains (deps.s3sCoopGameId id)))) ∧
    (∀ id, id ∈ notExportedFilter deps uuid list ↔
      (id ∈ list ∧ ¬ (deps.gameId id ∈ uuid) ∧
       ¬ (deps.s3siGameId id ∈ uuid) ∧ ¬ (deps.s3sCoopGameId id ∈ uuid))) := by
  have hfe : notExportedFilter deps uuid list =
      list.filter (fun id =>
        (!(uuid.contains (deps.gameId id))) &&
        (!(uuid.contains (deps.s3siGameId id))) &&
        (!(uuid.contains (deps.s3sCoopGameId id)))) := by
    induction list with
    | nil => rfl
    | cons id rest ih =>
      unfold notExportedFilter
      rw [List.filter_cons]
      by_cases h : ¬ (uuid.contains (deps.gameId id)) ∧
          ¬ (uuid.contains (deps.s3siGameId id)) ∧
          ¬ (uuid.contains (deps.s3sCoopGameId id))
      · rw [if_pos h, ih]
        have hb : ((!(uuid.contains (deps.gameId id))) &&
            (!(uuid.contains (deps.s3siGameId id))) &&
            (!(uuid.contains (deps.s3sCoopGameId id)))) = true := by
          simp only [Bool.and_eq_true, Bool.not_eq_true']
          refine ⟨⟨?_, ?_⟩, ?_⟩
          · exact (Bool.not_eq_true _).mp h.1
          · exact (Bool.not_eq_true _).mp h.2.1
          · exact (Bool.not_eq_true _).mp h.2.2
        rw [hb]
        simp
      · rw [if_neg h, ih]
        have hb : ((!(uuid.contains (deps.gameId id))) &&
            (!(uuid.contains (deps.s3siGameId id))) &&
            (!(uuid.contains (deps.s3sCoopGameId id)))) = false := by
          simp only [Bool.and_eq_false_iff, Bool.not_eq_false']
          by_cases h1 : uuid.contains (deps.gameId id)
          · exact Or.inl (Or.inl h1)
          · by_cases h2 : uuid.contains (deps.s3siGameId id)
            · exact Or.inl (Or.inr h2)
            · by_cases h3 : uuid.contains (deps.s3sCoopGameId id)
              · exact Or.inr h3
              · exact absurd ⟨h1, h2, h3⟩ h
        rw [hb]
        simp
  refine ⟨hfe, ?_⟩
  intro id
  rw [hfe, List.mem_filter]
  simp [and_assoc]

/-- C6 companion: `notExported` only wraps the pure filter around the
fetched uuid list. -/
theorem notExported_ok_spec (deps : ExternDeps) (status : Nat)
    (body : Option UuidListBody) (list out : List String)
    (h : notExported deps status body list = Except.ok out) :
    ∃ uuid, uuidList status body = Except.ok uuid ∧
      out = notExportedFilter deps uuid list := by
  unfold notExported at h
  cases hu : uuidList status body with
  | error e => rw [hu] at h; exact absurd h (by simp)
  | ok uuid =>
    rw [hu] at h
    simp only [Except.ok.injEq] at h
    exact ⟨uuid, rfl, h.symm⟩

/-- C6 witness: the filter characterization at a concrete input — the
candidate "a" is excluded because its legacy variant "a-si" is uploaded,
while "b" is kept. -/
theorem notExported_filter_witness :
    notExportedFilter cdeps ["a-si"] ["a", "b"] = ["b"] ∧
    ("b" ∈ notExportedFilter cdeps ["a-si"] ["a", "b"] ↔
      ("b" ∈ ["a", "b"] ∧ ¬ (cdeps.gameId "b" ∈ ["a-si"]) ∧
       ¬ (cdeps.s3siGameId "b" ∈ ["a-si"]) ∧
       ¬ (cdeps.s3sCoopGameId "b" ∈ ["a-si"]))) := by
  constructor
  · rw [(notExported_filter_spec cdeps ["a-si"] ["a", "b"]).1]
    decide
  · exact (notExported_filter_spec cdeps ["a-si"] ["a", "b"]).2 "b"

/-! ## C7: the upload POST success contract -/

/-- `postBattle` (lines 105–135): `status` and `json` are the response
status and parsed JSON body of the POST (the request body itself does
not influence the control flow).  On success the parsed response — which
carries the record `url` destructured by `exportGame` — is returned. -/
def postBattle (status : Nat) (json : StatInkPostResponse) :
    Except ExportError StatInkPostResponse :=
  if status ≠ 200 ∧ status ≠ 201 then
    Except.error (ExportError.api
      { status := status
        json := some (APIErrorPayload.postResp json)
        message := some "Failed to export battle" })
  else if json.error.isSome then
    Except.error (ExportError.api
      { status := status
        json := some (APIErrorPayload.postResp json)
        message := some "Failed to export battle" })
  else Except.ok json

/-- `postCoop` (lines 137–167): identical contract (the source repeats
the code, including the "Failed to export battle" message). -/
def postCoop (status : Nat) (json : StatInkPostResponse) :
    Except ExportError StatInkPostResponse :=
  if status ≠ 200 ∧ status ≠ 201 then
    Except.error (ExportError.api
      { status := status
        json := some (APIErrorPayload.postResp json)
        message := some "Failed to export battle" })
  else if json.error.isSome then
    Except.error (ExportError.api
      { status := status
        json := some (APIErrorPayload.postResp json)
        message := some "Failed to export battle" })
  else Except.ok json

/-- C7: `postBattle` and `postCoop` succeed — returning the parsed
response that carries the record url — exactly when the status is 200 or
201 and the response has no embedded error field; in every other
combination they raise an `APIError` carrying the response status and
the parsed body. -/
theorem post_success_iff (status : Nat) (json : StatInkPostResponse) :
    (∀ r, postBattle status json = Except.ok r ↔
      (r = json ∧ (status = 200 ∨ status = 201) ∧ json.error = none)) ∧
    (∀ r, postCoop status json = Except.ok r ↔
      (r = json ∧ (status = 200 ∨ status = 201) ∧ json.error = none)) ∧
    (¬ ((status = 200 ∨ status = 201) ∧ json.error = none) →
      postBattle status json = Except.error (ExportError.api
        { status := status
          json := some (APIErrorPayload.postResp json)
          message := some "Failed to export battle" }) ∧
      postCoop status json = Except.error (ExportError.api
        { status := status
          json := some (APIErrorPayload.postResp json)
          message := some "Failed to export battle" })) := by
  have hmain : ∀ r, (if status ≠ 200 ∧ status ≠ 201 then
      Except.error (ExportError.api
        { status := status
          json := some (APIErrorPayload.postResp json)
          message := some "Failed to export battle" })
    else if json.error.isSome then
      Except.error (ExportError.api
        { status := status
          json := some (APIErrorPayload.postResp json)
          message := some "Failed to export battle" })
    else Except.ok json : Except ExportError StatInkPostResponse) =
      Except.ok r ↔
      (r = json ∧ (status = 200 ∨ status = 201) ∧ json.error = none) := by
    intro r
    by_cases hs : status ≠ 200 ∧ status ≠ 201
    · rw [if_pos hs]
      constructor
      · intro h; exact absurd h (by simp)
      · intro ⟨_, h, _⟩
        exfalso
        rcases h with h | h
        · exact hs.1 h
        · exact hs.2 h
    · rw [if_neg hs]
      have hs2 : status = 200 ∨ status = 201 := by
        by_cases h1 : status = 200
        · exact Or.inl h1
        · by_cases h2 : status = 201
          · exact Or.inr h2
          · exact absurd ⟨h1, h2⟩ hs
      cases herr : json.error with
      | some e => simp
      | none =>
        simp only [Option.isSome_none, Bool.false_eq_true, if_false]
        constructor
        · intro h
          simp only [Except.ok.injEq] at h
          exact ⟨h.symm, hs2, trivial⟩
        · intro ⟨hr, _, _⟩
          rw [hr]
  refine ⟨fun r => hmain r, fun r => hmain r, ?_⟩
  intro hno
  constructor <;>
  · simp only [postBattle, postCoop]
    by_cases hs : status ≠ 200 ∧ status ≠ 201
    · rw [if_pos hs]
    · rw [if_neg hs]
      have hs2 : status = 200 ∨ status = 201 := by
        by_cases h1 : status = 200
        · exact Or.inl h1
        · by_cases h2 : status = 201
          · exact Or.inr h2
          · exact absurd ⟨h1, h2⟩ hs
      cases herr : json.error with
      | some e => simp
      | none => exact absurd ⟨hs2, herr⟩ hno

/-- C7 witness: the theorem applied at a 201 status with no embedded
error, and at a 200 status with an error field. -/
theorem post_success_witness :
    postBattle 201 { error := none, url := some "u" } =
      Except.ok { error := none, url := some "u" } ∧
    postCoop 200 { error := some ["bad"], url := none } =
      Except.error (ExportError.api
        { status := 200
          json := some (APIErrorPayload.postResp
            { error := some ["bad"], url := none })
          message := some "Failed to export battle" }) := by
  constructor
  · exact ((post_success_iff 201 { error := none, url := some "u" }).1
      { error := none, url := some "u" }).mpr ⟨rfl, Or.inr rfl, rfl⟩
  · exact ((post_success_iff 200
      { error := some ["bad"], url := none }).2.2
      (by intro h; exact absurd h.2 (by simp))).2

/-! ## C9: `mapColor` -/

/-- RGBA color record with float components. -/
structure Color where
  r : ℚ
  g : ℚ
  b : ℚ
  a : ℚ
  deriving DecidableEq

/-- JavaScript `Math.round` (`Math.round(x) = Math.floor(x + 0.5)` for
the finite values arising here), computably on `ℚ`. -/
def jsRound (q : ℚ) : ℤ := (q + 1/2).num / ((q + 1/2).den : ℤ)

theorem jsRound_eq_round (q : ℚ) : jsRound q = round q := by
  rw [round_eq, Rat.floor_def]
  rfl

/-- `Number.prototype.toString(16)` on a non-negative integer. -/
def toHexString (n : Nat) : String := String.mk (Nat.toDigits 16 n)

/-- `String.prototype.padStart(2, "0")`. -/
def padStart2 (s : String) : String :=
  if s.length < 2 then String.mk (List.replicate (2 - s.length) '0') ++ s
  else s

/-- The `float2hex` helper of `mapColor` (lines 607–608).  `Int.toNat`
is exact for the non-negative values produced on the claim's domain. -/
def float2hex (i : ℚ) : String :=
  padStart2 (toHexString (jsRound (i * 255)).toNat)

/-- `mapColor` (lines 606–612). -/
def mapColor (color : Color) : String :=
  String.join ([color.r, color.g, color.b, color.a].map float2hex)

/-- Value of one lowercase hexadecimal digit (claim-side decoder). -/
def hexCharVal (c : Char) : Nat :=
  if c.toNat ≥ 97 then c.toNat - 87 else c.toNat - 48

/-- Claim-side decoder of a hexadecimal string. -/
def decodeHex (s : String) : Nat :=
  s.data.foldl (fun acc c => 16 * acc + hexCharVal c) 0

set_option maxRecDepth 4096 in
set_option maxHeartbeats 1000000 in
theorem decode_pad_hex : ∀ n < 256,
    decodeHex (padStart2 (toHexString n)) = n ∧
    (padStart2 (toHexString n)).length = 2 := by decide

theorem jsRound_nonneg {i : ℚ} (h0 : 0 ≤ i) : 0 ≤ jsRound (i * 255) := by
  rw [jsRound_eq_round, round_eq]
  rw [Int.floor_nonneg]
  nlinarith

theorem jsRound_le_255 {i : ℚ} (h1 : i ≤ 1) : jsRound (i * 255) ≤ 255 := by
  rw [jsRound_eq_round, round_eq]
  rw [Int.floor_le_iff]
  push_cast
  nlinarith

theorem float2hex_spec {i : ℚ} (h0 : 0 ≤ i) (h1 : i ≤ 1) :
    (float2hex i).length = 2 ∧
    decodeHex (float2hex i) = (jsRound (i * 255)).toNat ∧
    decodeHex (float2hex i) ≤ 255 := by
  have hnn := jsRound_nonneg h0
  have hle := jsRound_le_255 h1
  have hlt : (jsRound (i * 255)).toNat < 256 := by omega
  have hd := decode_pad_hex (jsRound (i * 255)).toNat hlt
  exact ⟨hd.2, by rw [float2hex, hd.1], by rw [float2hex, hd.1]; omega⟩

theorem roundtrip_bound {i : ℚ} (h0 : 0 ≤ i) (h1 : i ≤ 1) :
    |(((jsRound (i * 255)).toNat : ℚ)) / 255 - i| ≤ 1 / 255 := by
  have hnn := jsRound_nonneg h0
  have hcast : (((jsRound (i * 255)).toNat : ℚ)) =
      ((jsRound (i * 255) : ℤ) : ℚ) := by
    conv_rhs => rw [← Int.toNat_of_nonneg hnn]
    rw [Int.cast_natCast]
  rw [hcast, jsRound_eq_round]
  have habs : |((round (i * 255) : ℤ) : ℚ) - i * 255| ≤ 1 / 2 := by
    rw [abs_sub_comm]
    exact abs_sub_round (i * 255)
  have heq : ((round (i * 255) : ℤ) : ℚ) / 255 - i =
      (((round (i * 255) : ℤ) : ℚ) - i * 255) / 255 := by ring
  rw [heq, abs_div]
  have h255 : |(255 : ℚ)| = 255 := by norm_num
  rw [h255]
  calc |((round (i * 255) : ℤ) : ℚ) - i * 255| / 255 ≤ (1 / 2) / 255 := by
        gcongr
    _ ≤ 1 / 255 := by norm_num

theorem mapColor_split (c : Color) :
    mapColor c = float2hex c.r ++ float2hex c.g ++ float2hex c.b ++
      float2hex c.a := by
  simp [mapColor, String.join]

/-- C9: for components in [0,1] `mapColor` yields the 8-character
concatenation of the four 2-hex-digit channels in R,G,B,A order, and
decoding each channel back to an integer 0–255 and dividing by 255
reproduces the input component to within 1/255. -/
theorem mapColor_hex_roundtrip (c : Color)
    (h : ∀ x ∈ [c.r, c.g, c.b, c.a], 0 ≤ x ∧ x ≤ 1) :
    (mapColor c).length = 8 ∧
    mapColor c = float2hex c.r ++ float2hex c.g ++ float2hex c.b ++
      float2hex c.a ∧
    (∀ x ∈ [c.r, c.g, c.b, c.a],
      (float2hex x).length = 2 ∧
      decodeHex (float2hex x) ≤ 255 ∧
      |((decodeHex (float2hex x) : ℚ)) / 255 - x| ≤ 1 / 255) := by
  have hr := h c.r (by simp)
  have hg := h c.g (by simp)
  have hb := h c.b (by simp)
  have ha := h c.a (by simp)
  refine ⟨?_, mapColor_split c, ?_⟩
  · rw [mapColor_split c]
    simp only [String.length_append]
    rw [(float2hex_spec hr.1 hr.2).1, (float2hex_spec hg.1 hg.2).1,
      (float2hex_spec hb.1 hb.2).1, (float2hex_spec ha.1 ha.2).1]
  · intro x hx
    have hx2 : 0 ≤ x ∧ x ≤ 1 := h x hx
    have hs := float2hex_spec hx2.1 hx2.2
    refine ⟨hs.1, hs.2.2, ?_⟩
    rw [hs.2.1]
    exact roundtrip_bound hx2.1 hx2.2

/-- C9 witness: the theorem applied to the concrete color
(1, 0, 1/2, 3/5). -/
theorem mapColor_witness :
    (mapColor { r := 1, g := 0, b := 1/2, a := 3/5 }).length = 8 := by
  have h := mapColor_hex_roundtrip { r := 1, g := 0, b := 1/2, a := 3/5 }
    (by
      intro x hx
      simp only [List.mem_cons, List.not_mem_nil, or_false] at hx
      rcases hx with hh | hh | hh | hh <;> rw [hh] <;>
        exact ⟨by norm_num, by norm_num⟩)
  exact h.1

/-! ## Versus input data model (`VsInfo` from `types.ts`) -/

structure GearPower where
  name : String
  deriving DecidableEq

structure PlayerGear where
  primaryGearPower : GearPower
  additionalGearPowers : List GearPower
  deriving DecidableEq

structure VsPlayerResult where
  kill : Int
  assist : Int
  death : Int
  special : Int
  noroshiTry : Option Int
  deriving DecidableEq

structure VsPlayer where
  isMyself : Bool
  name : String
  nameId : Option String
  byname : String
  weapon : IdRef
  paint : Int
  crown : Bool
  headGear : PlayerGear
  clothingGear : PlayerGear
  shoesGear : PlayerGear
  result : Option VsPlayerResult
  deriving DecidableEq

structure VsTeamResult where
  paintRatio : Option ℚ
  score : Option Int
  deriving DecidableEq

structure VsTeam where
  players : List VsPlayer
  color : Color
  result : Option VsTeamResult
  festTeamName : Option String
  tricolorRole : Option String
  deriving DecidableEq

structure VsMode where
  mode : String
  id : String
  deriving DecidableEq

structure VsRule where
  rule : String
  deriving DecidableEq

structure VsStage where
  id : String
  name : String
  deriving DecidableEq

structure BankaraMatch where
  mode : String
  earnedUdemaePoint : Option Int
  deriving DecidableEq

structure FestMatch where
  dragonMatchType : String
  contribution : Int
  myFestPower : Option ℚ
  deriving DecidableEq

structure XMatchRec where
  lastXPower : Option ℚ
  deriving DecidableEq

structure Award where
  name : String
  deriving DecidableEq

structure VsHistoryDetail where
  id : String
  vsMode : VsMode
  vsRule : VsRule
  vsStage : VsStage
  judgement : String
  knockout : Option String
  duration : Int
  playedTime : String
  myTeam : VsTeam
  otherTeams : List VsTeam
  bankaraMatch : Option BankaraMatch
  festMatch : Option FestMatch
  xMatch : Option XMatchRec
  awards : List Award
  deriving DecidableEq

structure ChallengeProgress where
  index : Nat
  winCount : Int
  loseCount : Int
  deriving DecidableEq

structure BankaraMatchChallenge where
  isPromo : Bool
  isUdemaeUp : Option Bool
  udemaeAfter : Option String
  earnedUdemaePoint : Option Int
  deriving DecidableEq

structure XMatchMeasurement where
  state : String
  xPowerAfter : Option ℚ
  deriving DecidableEq

structure VsGroupInfo where
  xMatchMeasurement : Option XMatchMeasurement
  deriving DecidableEq

structure VsListNode where
  udemae : Option String
  deriving DecidableEq

structure RankState where
  rank : String
  rankPoint : Int
  deriving DecidableEq

structure VsInfo where
  groupInfo : Option VsGroupInfo
  listNode : Option VsListNode
  challengeProgress : Option ChallengeProgress
  bankaraMatchChallenge : Option BankaraMatchChallenge
  rankBeforeState : Option RankState
  rankState : Option RankState
  detail : VsHistoryDetail
  deriving DecidableEq

/-! ## Versus output data model (stat.ink battle post body) -/

structure StatInkGear where
  primary_ability : String
  secondary_abilities : List (Option String)
  deriving DecidableEq

structure StatInkGears where
  headgear : StatInkGear
  clothing : StatInkGear
  shoes : StatInkGear
  deriving DecidableEq

structure StatInkPlayer where
  me : String
  rank_in_team : Int
  name : String
  number : Option String
  splashtag_title : String
  weapon : String
  inked : Int
  gears : StatInkGears
  crown : String
  disconnected : String
  kill_or_assist : Option Int := none
  assist : Option Int := none
  kill : Option Int := none
  death : Option Int := none
  signal : Option Int := none
  special : Option Int := none
  deriving DecidableEq

structure StatInkPostBody where
  uuid : String
  lobby : String
  rule : String
  stage : String
  result : String
  weapon : String
  inked : Int
  rank_in_team : Int
  medals : List String
  our_team_players : List StatInkPlayer
  their_team_players : List StatInkPlayer
  agent : String
  agent_version : String
  agent_variables : List (String × String)
  automated : String
  start_at : Int
  end_at : Int
  kill_or_assist : Option Int := none
  assist : Option Int := none
  kill : Option Int := none
  death : Option Int := none
  signal : Option Int := none
  special : Option Int := none
  our_team_color : Option String := none
  their_team_color : Option String := none
  third_team_color : Option String := none
  fest_dragon : Option String := none
  clout_change : Option Int := none
  fest_power : Option ℚ := none
  our_team_percent : Option ℚ := none
  their_team_percent : Option ℚ := none
  our_team_inked : Option Int := none
  their_team_inked : Option Int := none
  our_team_theme : Option String := none
  our_team_role : Option String := none
  their_team_theme : Option String := none
  their_team_role : Option String := none
  third_team_players : Option (List StatInkPlayer) := none
  third_team_percent : Option ℚ := none
  third_team_inked : Option Int := none
  third_team_theme : Option String := none
  third_team_role : Option String := none
  knockout : Option String := none
  our_team_count : Option Int := none
  their_team_count : Option Int := none
  rank_before : Option String := none
  rank_before_s_plus : Option Int := none
  rank_after : Option String := none
  rank_after_s_plus : Option Int := none
  rank_up_battle : Option String := none
  rank_exp_change : Option Int := none
  challenge_win : Option Int := none
  challenge_lose : Option Int := none
  x_power_before : Option ℚ := none
  x_power_after : Option ℚ := none
  rank_before_exp : Option Int := none
  rank_after_exp : Option Int := none
  deriving DecidableEq

/-- One stage entry of the stat.ink stage catalog. -/
structure StatInkStage where
  key : String
  aliases : List String
  deriving DecidableEq

/-- One ability entry of the stat.ink ability catalog; `name` is
`Object.values(i.name)` (all locale names). -/
structure StatInkAbilityEntry where
  key : String
  name : List String
  deriving DecidableEq

/-- The catalog tables the battle mapper consults (fetched once and
cached by the remote catalog client). -/
structure Catalogs where
  stage : List StatInkStage
  ability : List StatInkAbilityEntry

/-! ## Versus mapping functions -/

/-- `parseUdemae` (lines 919–925): models `udemae.split(/([0-9]+)/)` —
the part before the first digit run, lower-cased, and the first digit
run parsed (absent when the label has no digits). -/
def parseUdemae (deps : ExternDeps) (udemae : String) :
    String × Option Int :=
  let rank := udemae.takeWhile (fun c => !(c.isDigit))
  let rankNum :=
    (udemae.dropWhile (fun c => !(c.isDigit))).takeWhile (fun c => c.isDigit)
  (rank.toLower,
   if rankNum = "" then none else some (deps.parseIntStr rankNum))

/-- `mapLobby` (lines 305–336). -/
def mapLobby (deps : ExternDeps) (vsDetail : VsHistoryDetail) :
    Except ExportError String :=
  let vsMode := vsDetail.vsMode.mode
  if vsMode = "REGULAR" then Except.ok "regular"
  else if vsMode = "BANKARA" then
    let mode := (vsDetail.bankaraMatch.map (fun b => b.mode)).getD "UNKNOWN"
    let result :=
      if mode = "OPEN" then "bankara_open"
      else if mode = "CHALLENGE" then "bankara_challenge"
      else ""
    if result ≠ "" then Except.ok result
    else Except.error (ExportError.mapping ("Unknown vsMode " ++ vsMode))
  else if vsMode = "PRIVATE" then Except.ok "private"
  else if vsMode = "FEST" then
    let modeId := deps.b64Number vsDetail.vsMode.id
    if modeId = 6 then Except.ok "splatfest_open"
    else if modeId = 7 then Except.ok "splatfest_challenge"
    else if modeId = 8 then Except.ok "splatfest_open"
    else Except.error (ExportError.mapping ("Unknown vsMode " ++ vsMode))
  else if vsMode = "X_MATCH" then Except.ok "xmatch"
  else Except.error (ExportError.mapping ("Unknown vsMode " ++ vsMode))

/-- `mapStage` (lines 337–348). -/
def mapStage (deps : ExternDeps) (stage : List StatInkStage)
    (vsDetail : VsHistoryDetail) : Except ExportError String :=
  let id := toString (deps.b64Number vsDetail.vsStage.id)
  match stage.find? (fun s => s.aliases.contains id) with
  | none =>
    Except.error (ExportError.mapping
      ("Unknown stage: " ++ vsDetail.vsStage.name))
  | some result => Except.ok result.key

/-- The `mapAbility` helper of `mapGears` (lines 352–362). -/
def mapAbility (ability : List StatInkAbilityEntry) (name : String) :
    Option String :=
  (ability.find? (fun a => a.name.contains name)).map (fun a => a.key)

/-- The `mapGear` helper of `mapGears` (lines 363–374): a primary
ability that resolves to nothing is a hard error, unresolved secondary
abilities become null. -/
def mapGear (ability : List StatInkAbilityEntry) (g : PlayerGear) :
    Except ExportError StatInkGear :=
  match mapAbility ability g.primaryGearPower.name with
  | none =>
    Except.error (ExportError.mapping
      ("Unknown ability: " ++ g.primaryGearPower.name))
  | some primary =>
    Except.ok
      { primary_ability := primary
        secondary_abilities :=
          g.additionalGearPowers.map (fun p => mapAbility ability p.name) }

/-- `mapGears` (lines 349–380). -/
def mapGears (ability : List StatInkAbilityEntry) (p : VsPlayer) :
    Except ExportError StatInkGears :=
  match mapGear ability p.headGear with
  | Except.error e => Except.error e
  | Except.ok headgear =>
    match mapGear ability p.clothingGear with
    | Except.error e => Except.error e
    | Except.ok clothing =>
      match mapGear ability p.shoesGear with
      | Except.error e => Except.error e
      | Except.ok shoes =>
        Except.ok
          { headgear := headgear
            clothing := clothing
            shoes := shoes }

/-- `mapPlayer` (lines 381–406). -/
def mapPlayer (deps : ExternDeps) (cat : Catalogs) (player : VsPlayer)
    (index : Nat) : Except ExportError StatInkPlayer :=
  match mapGears cat.ability player with
  | Except.error e => Except.error e
  | Except.ok gears =>
    let base : StatInkPlayer :=
      { me := if player.isMyself then "yes" else "no"
        rank_in_team := (index : Int) + 1
        name := player.name
        number := player.nameId
        splashtag_title := player.byname
        weapon := toString (deps.b64Number player.weapon.id)
        inked := player.paint
        gears := gears
        crown := if player.crown then "yes" else "no"
        disconnected := if player.result.isSome then "no" else "yes" }
    Except.ok
      (match player.result with
        | some r =>
          { base with
            kill_or_assist := some r.kill
            assist := some r.assist
            kill := some (r.kill - r.assist)
            death := some r.death
            signal := r.noroshiTry
            special := some r.special }
        | none => base)

/-- `Promise.all(players.map(this.mapPlayer))`: each player is mapped
with its position index. -/
def mapPlayersIdx (deps : ExternDeps) (cat : Catalogs)
    (players : List VsPlayer) : Except ExportError (List StatInkPlayer) :=
  exceptMapM (fun p => mapPlayer deps cat p.2 p.1) players.enum

set_option maxHeartbeats 3200000 in
/-- The pure tail of `mapBattle` (lines 438–604): the base post body and
the subsequent conditional field assignments, given the already-awaited
sub-results. -/
def assembleBattle (deps : ExternDeps) (uploadMode : String) (info : VsInfo)
    (self : VsPlayer) (ot0 : VsTeam) (otRest : List VsTeam)
    (lobby stage : String)
    (our_team_players their_team_players : List StatInkPlayer)
    (thirdPlayers : Option (List StatInkPlayer)) : StatInkPostBody :=
  let vsDetail := info.detail
  let startedAt := Int.fdiv (deps.dateGetTime vsDetail.playedTime) 1000
  let result : StatInkPostBody :=
    { uuid := deps.gameId vsDetail.id
      lobby := lobby
      rule := deps.ruleMap vsDetail.vsRule.rule
      stage := stage
      result := deps.resultMap vsDetail.judgement
      weapon := toString (deps.b64Number self.weapon.id)
      inked := self.paint
      rank_in_team :=
        (vsDetail.myTeam.players.findIdx (fun i => i == self) : Int) + 1
      medals := vsDetail.awards.map (fun a => a.name)
      our_team_players := our_team_players
      their_team_players := their_team_players
      agent := deps.agentName
      agent_version := deps.s3siVersion
      agent_variables := [("Upload Mode", uploadMode)]
      automated := "yes"
      start_at := startedAt
      end_at := startedAt + vsDetail.duration }
  let result :=
    match self.result with
    | some r =>
      { result with
        kill_or_assist := some r.kill
        assist := some r.assist
        kill := some (r.kill - r.assist)
        death := some r.death
        signal := r.noroshiTry
        special := some r.special }
    | none => result
  let result := { result with
    our_team_color := some (mapColor vsDetail.myTeam.color)
    their_team_color := some (mapColor ot0.color) }
  let result :=
    match otRest with
    | [ot1] => { result with third_team_color := some (mapColor ot1.color) }
    | _ => result
  let result :=
    match vsDetail.festMatch with
    | some festMatch =>
      { result with
        fest_dragon := some (deps.dragonMap festMatch.dragonMatchType)
        clout_change := some festMatch.contribution
        fest_power := festMatch.myFestPower }
    | none => result
  let result :=
    if vsDetail.vsRule.rule = "TURF_WAR" ∨
        vsDetail.vsRule.rule = "TRI_COLOR" then
      let result := { result with
        our_team_percent :=
          some (((vsDetail.myTeam.result.bind
            (fun r => r.paintRatio)).getD 0) * 100)
        their_team_percent :=
          some (((ot0.result.bind (fun r => r.paintRatio)).getD 0) * 100)
        our_team_inked :=
          some (vsDetail.myTeam.players.foldl (fun acc i => acc + i.paint) 0)
        their_team_inked :=
          some (ot0.players.foldl (fun acc i => acc + i.paint) 0) }
      let result :=
        if truthyStr vsDetail.myTeam.festTeamName then
          { result with our_team_theme := vsDetail.myTeam.festTeamName }
        else result
      let result :=
        if truthyStr vsDetail.myTeam.tricolorRole then
          { result with
            our_team_role :=
              some (if vsDetail.myTeam.tricolorRole = some "DEFENSE" then
                "defender" else "attacker") }
        else result
      let result :=
        if truthyStr ot0.festTeamName then
          { result with their_team_theme := ot0.festTeamName }
        else result
      let result :=
        if truthyStr ot0.tricolorRole then
          { result with
            their_team_role :=
              some (if ot0.tricolorRole = some "DEFENSE" then "defender"
                else "attacker") }
        else result
      match otRest with
      | [ot1] =>
        let result := { result with
          third_team_players := thirdPlayers
          third_team_percent :=
            some (((ot1.result.bind (fun r => r.paintRatio)).getD 0) * 100)
          third_team_inked :=
            some (ot1.players.foldl (fun acc i => acc + i.paint) 0) }
        let result :=
          if truthyStr ot1.festTeamName then
            { result with third_team_theme := ot1.festTeamName }
          else result
        if truthyStr ot1.tricolorRole then
          { result with
            third_team_role :=
              some (if ot1.tricolorRole = some "DEFENSE" then "defender"
                else "attacker") }
        else result
      | _ => result
    else result
  let result :=
    if truthyStr vsDetail.knockout then
      { result with
        knockout :=
          some (if vsDetail.knockout = some "NEITHER" then "no" else "yes") }
    else result
  let result := { result with
    our_team_count := vsDetail.myTeam.result.bind (fun r => r.score)
    their_team_count := ot0.result.bind (fun r => r.score)
    rank_exp_change := vsDetail.bankaraMatch.bind
      (fun b => b.earnedUdemaePoint) }
  let result :=
    match info.listNode.bind (fun l => l.udemae) with
    | some udemae =>
      if udemae ≠ "" then
        { result with
          rank_before := some (parseUdemae deps udemae).1
          rank_before_s_plus := (parseUdemae deps udemae).2 }
      else result
    | none => result
  let result :=
    match info.bankaraMatchChallenge, info.challengeProgress with
    | some bmc, some cp =>
      let result := { result with
        rank_up_battle := some (if bmc.isPromo then "yes" else "no") }
      if cp.index = 0 ∧ truthyStr bmc.udemaeAfter then
        match bmc.udemaeAfter with
        | some ua =>
          { result with
            rank_after := some (parseUdemae deps ua).1
            rank_after_s_plus := (parseUdemae deps ua).2
            rank_exp_change := bmc.earnedUdemaePoint }
        | none => result
      else
        { result with
          rank_after := result.rank_before
          rank_after_s_plus := result.rank_before_s_plus }
    | _, _ => result
  let result :=
    match info.challengeProgress with
    | some cp =>
      { result with
        challenge_win := some cp.winCount
        challenge_lose := some cp.loseCount }
    | none => result
  let result :=
    match vsDetail.xMatch with
    | some xm =>
      let result :=
        { result with
          x_power_before := xm.lastXPower
          x_power_after := xm.lastXPower }
      match info.groupInfo.bind (fun g => g.xMatchMeasurement) with
      | some m =>
        if m.state = "COMPLETED" ∧
            (info.challengeProgress.map (fun c => c.index)) = some 0 then
          { result with x_power_after := m.xPowerAfter }
        else result
      | none => result
    | none => result
  let result :=
    match info.rankBeforeState, info.rankState with
    | some rb, some ra =>
      let result :=
        { result with
          rank_before_exp := some rb.rankPoint
          rank_after_exp := some ra.rankPoint }
      let result :=
        if ¬ (((info.bankaraMatchChallenge.bind
            (fun b => b.isUdemaeUp)).getD false) = true) ∧
            result.rank_exp_change = none then
          { result with
            rank_exp_change := some (ra.rankPoint - rb.rankPoint) }
        else result
      if ¬ (truthyStr result.rank_after = true) then
        { result with
          rank_after := some (parseUdemae deps ra.rank).1
          rank_after_s_plus := (parseUdemae deps ra.rank).2 }
      else result
    | _, _ => result
  result

/-- `mapBattle` (lines 407–604): the hard-error checks and the awaited
sub-results in source order (self lookup, empty-opponent check, lobby,
stage, team player mappings, third-team player mapping when the rule and
team count call for it), then the pure assembly. -/
def mapBattle (deps : ExternDeps) (cat : Catalogs) (uploadMode : String)
    (info : VsInfo) : Except ExportError StatInkPostBody :=
  let vsDetail := info.detail
  match vsDetail.myTeam.players.find? (fun i => i.isMyself) with
  | none => Except.error (ExportError.mapping "Self not found")
  | some self =>
    match vsDetail.otherTeams with
    | [] => Except.error (ExportError.mapping "Other teams is empty")
    | ot0 :: otRest =>
      match mapLobby deps vsDetail with
      | Except.error e => Except.error e
      | Except.ok lobby =>
        match mapStage deps cat.stage vsDetail with
        | Except.error e => Except.error e
        | Except.ok stage =>
          match mapPlayersIdx deps cat vsDetail.myTeam.players with
          | Except.error e => Except.error e
          | Except.ok our_team_players =>
            match mapPlayersIdx deps cat ot0.players with
            | Except.error e => Except.error e
            | Except.ok their_team_players =>
              let thirdE : Except ExportError (Option (List StatInkPlayer)) :=
                if vsDetail.vsRule.rule = "TURF_WAR" ∨
                    vsDetail.vsRule.rule = "TRI_COLOR" then
                  match otRest with
                  | [ot1] =>
                    match mapPlayersIdx deps cat ot1.players with
                    | Except.error e => Except.error e
                    | Except.ok tp => Except.ok (some tp)
                  | _ => Except.ok none
                else Except.ok none
              match thirdE with
              | Except.error e => Except.error e
              | Except.ok thirdPlayers =>
                Except.ok (assembleBattle deps uploadMode info self ot0
                  otRest lobby stage our_team_players their_team_players
                  thirdPlayers)

/-! ## `exportGame` and C8 -/

/-- Session sum type (`Game` in `types.ts`): versus or coop. -/
inductive Game where
  | vs (v : VsInfo)
  | coop (c : CoopInfo)

structure ExportResult where
  status : String
  url : Option String
  deriving DecidableEq

/-- A network write performed by the upload client: one entry per POST
body submitted to stat.ink. -/
inductive PostEvent where
  | battle (body : StatInkPostBody)
  | coop (body : StatInkCoopPostBody)

/-- `exportGame` (lines 264–282), with the network-write log made
explicit: the returned list holds one event per POST issued.
`postStatus`/`postJson` stand for the response of the POST when one is
made. -/
def exportGame (deps : ExternDeps) (cat : Catalogs)
    (weaponMap : String → Option String) (uploadMode : String)
    (postStatus : Nat) (postJson : StatInkPostResponse) (game : Game) :
    Except ExportError ExportResult × List PostEvent :=
  match game with
  | Game.vs v =>
    match mapBattle deps cat uploadMode v with
    | Except.error e => (Except.error e, [])
    | Except.ok body =>
      match postBattle postStatus postJson with
      | Except.error e => (Except.error e, [PostEvent.battle body])
      | Except.ok json =>
        (Except.ok { status := "success", url := json.url },
         [PostEvent.battle body])
  | Game.coop c =>
    match mapCoop deps weaponMap uploadMode c with
    | Except.error e => (Except.error e, [])
    | Except.ok body =>
      match postCoop postStatus postJson with
      | Except.error e => (Except.error e, [PostEvent.coop body])
      | Except.ok json =>
        (Except.ok { status := "success", url := json.url },
         [PostEvent.coop body])

/-- C8: a versus session whose decoded stage id matches no catalog
entry's alias list makes `exportGame` fail with the unknown-stage
mapping error and an **empty** network-write log: no POST is issued for
that session.  The hypotheses rule out the hard errors raised even
earlier (missing self, empty opponent list, unknown lobby), each of
which would also abort with an empty log. -/
theorem export_unknown_stage_no_post (deps : ExternDeps) (cat : Catalogs)
    (wm : String → Option String) (um : String) (postStatus : Nat)
    (postJson : StatInkPostResponse) (v : VsInfo) (self : VsPlayer)
    (ot0 : VsTeam) (otRest : List VsTeam) (l : String)
    (hself : v.detail.myTeam.players.find? (fun i => i.isMyself) = some self)
    (hot : v.detail.otherTeams = ot0 :: otRest)
    (hlobby : mapLobby deps v.detail = Except.ok l)
    (hstage : cat.stage.find? (fun s =>
      s.aliases.contains (toString (deps.b64Number v.detail.vsStage.id))) =
        none) :
    exportGame deps cat wm um postStatus postJson (Game.vs v) =
      (Except.error (ExportError.mapping
        ("Unknown stage: " ++ v.detail.vsStage.name)), []) := by
  have hst : mapStage deps cat.stage v.detail =
      Except.error (ExportError.mapping
        ("Unknown stage: " ++ v.detail.vsStage.name)) := by
    unfold mapStage
    simp only [hstage]
  unfold exportGame mapBattle
  simp only [hself, hot, hlobby, hst]

def cVsGearPower : GearPower := { name := "A" }

def cVsGear : PlayerGear :=
  { primaryGearPower := cVsGearPower, additionalGearPowers := [] }

def cVsPlayer : VsPlayer :=
  { isMyself := true, name := "me", nameId := none, byname := "b",
    weapon := { id := "w" }, paint := 0, crown := false,
    headGear := cVsGear, clothingGear := cVsGear, shoesGear := cVsGear,
    result := none }

def cVsTeam : VsTeam :=
  { players := [cVsPlayer], color := { r := 0, g := 0, b := 0, a := 0 },
    result := none, festTeamName := none, tricolorRole := none }

def cVsDetail : VsHistoryDetail :=
  { id := "vid", vsMode := { mode := "REGULAR", id := "m" },
    vsRule := { rule := "TURF_WAR" },
    vsStage := { id := "s", name := "StageName" },
    judgement := "WIN", knockout := none, duration := 180, playedTime := "t",
    myTeam := cVsTeam,
    otherTeams := [{ cVsTeam with
      players := [{ cVsPlayer with isMyself := false }] }],
    bankaraMatch := none, festMatch := none, xMatch := none, awards := [] }

def cVsInfo : VsInfo :=
  { groupInfo := none, listNode := none, challengeProgress := none,
    bankaraMatchChallenge := none, rankBeforeState := none,
    rankState := none, detail := cVsDetail }

def cCat : Catalogs :=
  { stage := [{ key := "stg", aliases := ["99"] }], ability := [] }

/-- C8 witness: the theorem applied to a concrete session whose decoded
stage id "5" is not among the catalog aliases. -/
theorem export_unknown_stage_witness :
    exportGame cdeps cCat cwm "m" 200 { error := none, url := none }
      (Game.vs cVsInfo) =
      (Except.error (ExportError.mapping
        ("Unknown stage: " ++ cVsInfo.detail.vsStage.name)), []) :=
  export_unknown_stage_no_post cdeps cCat cwm "m" 200
    { error := none, url := none } cVsInfo cVsPlayer
    { cVsTeam with players := [{ cVsPlayer with isMyself := false }] } [] "regular"
    rfl rfl rfl rfl

end S3SI
